import Mathlib

/-!
The go-eshop event store: a shallow embedding.

The development follows the Go sources

* `internal/core/database.go`   (`InTransaction`)
* `internal/events/errors.go`   (the sentinel errors)
* `internal/events/stream.go`   (`Stream`, `newStreamFromDatabase`)
* `internal/events/event.go`    (`Event`, `EventToAdd`, `newEventFromDatabase`)
* `internal/events/repository.go` (`GetStream`, `CreateStream`, `GetEvents`, `AddEventToStream`)

Go values of type `error` are `Option GoError` (`none` is `nil`); a Go function returning
`(T, error)` returns a pair `T × Option GoError`; where a call can panic instead of returning,
its result is an `Outcome`.  Machine integers are `Nat`/`Int` with
explicit wrap-around.  The database connection is an explicit value `Conn` carrying the rows
it sees and the log of the calls issued on it.

The package `internal/events/db` (the generated queries and row types) is not part of the
sources at hand; its row types are reconstructed from the fields the sources read, and its
queries are modelled from the specification of the persistence backend.
-/

namespace EShop

/-! ## Errors -/

/-- The sentinel error values: `core.Err*`, `events.Err*` and the driver's `pgx.ErrNoRows`. -/
inductive Sentinel
  | ErrCouldNotStartTransaction
  | ErrCouldNotCommitTransaction
  | ErrCouldNotFetchEventStream
  | ErrStreamNotFound
  | ErrFailedToGetStream
  | ErrInvalidStreamId
  | ErrInvalidStreamVersion
  | ErrStreamAlreadyExists
  | ErrFailedToInsertEventToStream
  | ErrCouldNotIncrementStreamVersion
  | ErrInvalidEventTimestamp
  | pgxErrNoRows
  deriving DecidableEq, Repr

/-- A non-error operand of a `fmt.Errorf` call. -/
inductive FmtArg
  | streamID (id : Nat)
  | version (v : Nat)
  deriving DecidableEq, Repr

/-- Go error values.  `wrap1`/`wrap2` are the results of `fmt.Errorf` with one / two `%w`
verbs: the format string, the non-error operands in order, and the wrapped errors in order.
`driver` is an error produced by the database driver, identified by its SQLSTATE code. -/
inductive GoError
  | sentinel (s : Sentinel)
  | driver (code : Nat)
  | wrap1 (format : String) (args : List FmtArg) (e : GoError)
  | wrap2 (format : String) (args : List FmtArg) (e₁ e₂ : GoError)
  deriving DecidableEq, Repr

/-- The function `errors.Is(err, target)` for a sentinel target: the error is the target, or
one of the errors it wraps is. -/
def GoError.Is : GoError → Sentinel → Bool
  | .sentinel s, t => s == t
  | .driver _, _ => false
  | .wrap1 _ _ e, t => e.Is t
  | .wrap2 _ _ e₁ e₂, t => e₁.Is t || e₂.Is t

/-- The function `errors.Is` on a possibly-nil error: `nil` is no sentinel. -/
def errorsIs : Option GoError → Sentinel → Bool
  | none, _ => false
  | some e, t => e.Is t

/-- The non-error operands an error message was formatted from, the wrapped errors' included. -/
def GoError.operands : GoError → List FmtArg
  | .sentinel _ => []
  | .driver _ => []
  | .wrap1 _ args e => args ++ e.operands
  | .wrap2 _ args e₁ e₂ => args ++ e₁.operands ++ e₂.operands

/-! ## Machine integers -/

/-- The conversion `int64(v)` of a `uint64`. -/
def toInt64 (v : Nat) : Int :=
  if v % 2 ^ 64 < 2 ^ 63 then ((v % 2 ^ 64 : Nat) : Int) else ((v % 2 ^ 64 : Nat) : Int) - 2 ^ 64

/-- The conversion `uint64(i)` of an `int64`. -/
def toUint64 (i : Int) : Nat :=
  (i % 2 ^ 64).toNat

/-- The largest `int64`. -/
def maxInt64 : Int := 2 ^ 63 - 1

/-- A value in the range of `int64`. -/
def isInt64 (i : Int) : Prop := -(2 ^ 63) ≤ i ∧ i ≤ maxInt64

instance (i : Int) : Decidable (isInt64 i) := by
  unfold isInt64; exact inferInstance

/-! ## Row types of `internal/events/db` and `pgtype` -/

abbrev UUID := Nat

abbrev Bytes := List Nat

/-- The type `pgtype.InfinityModifier`. -/
inductive InfinityModifier
  | Finite
  | Infinity
  | NegativeInfinity
  deriving DecidableEq, Repr

/-- The type `pgtype.Timestamptz`; `Time` is a `time.Time` as an instant on the time line. -/
structure Timestamptz where
  Time : Int
  InfinityModifier : InfinityModifier
  Valid : Bool
  deriving DecidableEq, Repr

namespace db

/-- The row type `db.Event`. -/
structure Event where
  StreamID : UUID
  IdempotencyKey : UUID
  Version : Int
  Payload : Bytes
  RecordedAt : Timestamptz
  deriving DecidableEq, Repr

/-- The row type `db.Stream`. -/
structure Stream where
  StreamID : UUID
  IdempotencyKey : UUID
  LatestVersion : Int
  deriving DecidableEq, Repr

end db

/-! ## Domain types (`stream.go`, `event.go`) -/

/-- The type `events.Stream`. -/
structure Stream where
  streamID : UUID
  latestVersion : Nat
  idempotencyKey : UUID
  deriving DecidableEq, Repr

/-- The type `events.StreamToCreate`. -/
structure StreamToCreate where
  StreamID : UUID
  IdempotencyKey : UUID
  deriving DecidableEq, Repr

/-- The type `events.Event`. -/
structure Event where
  streamID : UUID
  version : Nat
  recordedAt : Int
  payload : Bytes
  deriving DecidableEq, Repr

/-- A value of the interface type `events.PayloadEvent`: the nil interface, or an
implementation, given by the bytes its method `SerializePayload()` returns. -/
inductive PayloadEvent
  | nil
  | impl (bytes : Bytes)
  deriving DecidableEq, Repr

/-- The method call `p.SerializePayload()`: the bytes of the implementation; on the nil
interface the call panics (`none`). -/
def PayloadEvent.SerializePayload : PayloadEvent → Option Bytes
  | .nil => none
  | .impl bytes => some bytes

/-- The type `events.EventToAdd`. -/
structure EventToAdd where
  StreamID : UUID
  IdempotencyKey : UUID
  ExpectedVersion : Nat
  Payload : PayloadEvent
  deriving DecidableEq, Repr

/-- How a call of a Go function with results `(T, error)` ends: it returns its two results,
or it panics. -/
inductive Outcome (T : Type)
  | returned (result : T) (err : Option GoError)
  | panicked
  deriving DecidableEq, Repr

/-- The zero value `Stream{}`. -/
instance : Inhabited Stream := ⟨⟨0, 0, 0⟩⟩

/-- The zero value `Event{}`. -/
instance : Inhabited Event := ⟨⟨0, 0, 0, []⟩⟩

/-- The function `newStreamFromDatabase` of `stream.go`. -/
def newStreamFromDatabase (s : db.Stream) : Stream × Option GoError :=
  if s.LatestVersion < 0 then
    (default, some (.sentinel .ErrInvalidStreamVersion))
  else
    (⟨s.StreamID, toUint64 s.LatestVersion, s.IdempotencyKey⟩, none)

/-- The function `newEventFromDatabase` of `event.go`. -/
def newEventFromDatabase (e : db.Event) : Event × Option GoError :=
  if e.Version < 0 then
    (default, some (.sentinel .ErrInvalidStreamVersion))
  else if !e.RecordedAt.Valid || e.RecordedAt.InfinityModifier != .Finite then
    (default, some (.sentinel .ErrInvalidEventTimestamp))
  else
    (⟨e.StreamID, toUint64 e.Version, e.RecordedAt.Time, e.Payload⟩, none)

/-! ## The database connection -/

/-- The calls the sources issue on a `core.DatabaseConnection` or a `pgx.Tx`. -/
inductive Call
  | Begin
  | Commit
  | Rollback
  | GetStream
  | CreateStream
  | GetEventsForStream
  | IncrementStreamVersion
  | AddEventToStream
  deriving DecidableEq, Repr

/-- One issued call and whether it returned without error.  The result of the deferred
`tx.Rollback` is discarded by the sources; it is recorded all the same: a rollback of an open
transaction succeeds, a rollback after `tx.Commit` finds the transaction closed and returns
`pgx.ErrTxClosed`. -/
structure CallRecord where
  call : Call
  ok : Bool
  deriving DecidableEq, Repr

/-- The rows of the two tables, in insertion order. -/
structure Store where
  streams : List db.Stream
  events : List db.Event
  deriving DecidableEq, Repr

/-- A connection (or transaction handle): the rows it sees and the calls issued so far. -/
structure Conn where
  store : Store
  log : List CallRecord
  deriving DecidableEq, Repr

/-- Record a call on the connection. -/
def Conn.issue (c : Conn) (call : Call) (ok : Bool) : Conn :=
  { c with log := c.log ++ [⟨call, ok⟩] }

/-- What the backend does on its own during one operation: for each call, the SQLSTATE code
of an infrastructure failure (`none`: no such failure), and the timestamp the events table
records for an inserted row. -/
structure Backend where
  beginErr : Option Nat
  commitErr : Option Nat
  getStreamErr : Option Nat
  createStreamErr : Option Nat
  getEventsErr : Option Nat
  incrementErr : Option Nat
  insertErr : Option Nat
  now : Timestamptz
  deriving DecidableEq, Repr

/-- A backend on which no call fails on its own, recording the given instant. -/
def Backend.healthy (t : Int) : Backend :=
  ⟨none, none, none, none, none, none, none, ⟨t, .Finite, true⟩⟩

namespace db

/-- The parameter type `db.CreateStreamParams`. -/
structure CreateStreamParams where
  StreamID : UUID
  IdempotencyKey : UUID

/-- The parameter type `db.IncrementStreamVersionParams`. -/
structure IncrementStreamVersionParams where
  StreamID : UUID
  ExpectedVersion : Int

/-- The parameter type `db.AddEventToStreamParams`. -/
structure AddEventToStreamParams where
  StreamID : UUID
  IdempotencyKey : UUID
  Version : Int
  Payload : Bytes

end db

namespace queries

/-- Modelled from the spec: the query `GetStream` of `internal/events/db`, which is not among
the sources: looks a stream up by ID, signalling no rows when it is absent. -/
def GetStream (b : Backend) (c : Conn) (streamID : UUID) : Except GoError db.Stream × Conn :=
  match b.getStreamErr with
  | some code => (.error (.driver code), c.issue .GetStream false)
  | none =>
    match c.store.streams.find? (fun r => r.StreamID == streamID) with
    | none => (.error (.sentinel .pgxErrNoRows), c.issue .GetStream false)
    | some r => (.ok r, c.issue .GetStream true)

/-- Modelled from the spec: the query `CreateStream` of `internal/events/db`, which is not
among the sources: inserts a stream row with version 0; the streams table has a uniqueness
constraint over the stream ID and a separate one over the idempotency key, and a violation
(SQLSTATE 23505) inserts nothing. -/
def CreateStream (b : Backend) (c : Conn) (arg : db.CreateStreamParams) :
    Except GoError db.Stream × Conn :=
  match b.createStreamErr with
  | some code => (.error (.driver code), c.issue .CreateStream false)
  | none =>
    if c.store.streams.any
        (fun r => r.StreamID == arg.StreamID || r.IdempotencyKey == arg.IdempotencyKey) then
      (.error (.driver 23505), c.issue .CreateStream false)
    else
      let row : db.Stream := ⟨arg.StreamID, arg.IdempotencyKey, 0⟩
      (.ok row, (Conn.mk { c.store with streams := c.store.streams ++ [row] } c.log).issue
        .CreateStream true)

/-- Modelled from the spec: the query `GetEventsForStream` of `internal/events/db`, which is
not among the sources: all event rows of the stream in ascending version order. -/
def GetEventsForStream (b : Backend) (c : Conn) (streamID : UUID) :
    Except GoError (List db.Event) × Conn :=
  match b.getEventsErr with
  | some code => (.error (.driver code), c.issue .GetEventsForStream false)
  | none =>
    (.ok ((c.store.events.filter (fun e => e.StreamID == streamID)).insertionSort
      (fun x y => x.Version ≤ y.Version)), c.issue .GetEventsForStream true)

/-- Modelled from the spec: the query `IncrementStreamVersion` of `internal/events/db`, which
is not among the sources: the conditional update "version = version + 1 where stream_id = ?
and version = ?", returning the updated row or signalling zero rows affected.  The column is
a signed 64-bit integer (the sources read it as `int64`), so an increment past its largest
value fails (SQLSTATE 22003) and updates nothing. -/
def IncrementStreamVersion (b : Backend) (c : Conn) (arg : db.IncrementStreamVersionParams) :
    Except GoError db.Stream × Conn :=
  match b.incrementErr with
  | some code => (.error (.driver code), c.issue .IncrementStreamVersion false)
  | none =>
    match c.store.streams.find?
        (fun r => r.StreamID == arg.StreamID && r.LatestVersion == arg.ExpectedVersion) with
    | none => (.error (.sentinel .pgxErrNoRows), c.issue .IncrementStreamVersion false)
    | some r =>
      if maxInt64 < r.LatestVersion + 1 then
        (.error (.driver 22003), c.issue .IncrementStreamVersion false)
      else
        (.ok { r with LatestVersion := r.LatestVersion + 1 },
          (Conn.mk { c.store with streams := c.store.streams.map (fun x =>
            if x.StreamID == arg.StreamID && x.LatestVersion == arg.ExpectedVersion then
              { x with LatestVersion := x.LatestVersion + 1 } else x) } c.log).issue
            .IncrementStreamVersion true)

/-- Modelled from the spec: the query `AddEventToStream` of `internal/events/db`, which is
not among the sources: inserts the event row (stream ID, idempotency key, version, payload)
and returns it; the events table has a uniqueness constraint over (stream ID, idempotency
key), and a violation (SQLSTATE 23505) inserts nothing.  The recorded timestamp is the
backend's. -/
def AddEventToStream (b : Backend) (c : Conn) (arg : db.AddEventToStreamParams) :
    Except GoError db.Event × Conn :=
  match b.insertErr with
  | some code => (.error (.driver code), c.issue .AddEventToStream false)
  | none =>
    if c.store.events.any
        (fun e => e.StreamID == arg.StreamID && e.IdempotencyKey == arg.IdempotencyKey) then
      (.error (.driver 23505), c.issue .AddEventToStream false)
    else
      let row : db.Event := ⟨arg.StreamID, arg.IdempotencyKey, arg.Version, arg.Payload, b.now⟩
      (.ok row, (Conn.mk { c.store with events := c.store.events ++ [row] } c.log).issue
        .AddEventToStream true)

end queries

/-! ## `core.InTransaction` (`database.go`) -/

/-- The function `core.InTransaction`.  `conn.Begin` hands out a transaction handle that sees
the connection's rows; what `fn` does on the handle reaches the connection only through a
successful `tx.Commit`; the deferred `tx.Rollback` runs on every exit after a successful
`Begin`, a panic of `fn` included: it discards whatever was not committed, and after
`tx.Commit` it finds the transaction closed. -/
def InTransaction {T : Type} [Inhabited T] (b : Backend) (conn : Conn)
    (fn : Conn → Outcome T × Conn) : Outcome T × Conn :=
  match b.beginErr with
  | some _ =>
    (.returned default (some (.sentinel .ErrCouldNotStartTransaction)), conn.issue .Begin false)
  | none =>
    match fn (conn.issue .Begin true) with
    | (.panicked, tx) => (.panicked, (Conn.mk conn.store tx.log).issue .Rollback true)
    | (.returned _ (some err), tx) =>
      (.returned default (some err), (Conn.mk conn.store tx.log).issue .Rollback true)
    | (.returned result none, tx) =>
      match b.commitErr with
      | some _ =>
        (.returned default (some (.sentinel .ErrCouldNotCommitTransaction)),
          ((Conn.mk conn.store tx.log).issue .Commit false).issue .Rollback false)
      | none => (.returned result none, (tx.issue .Commit true).issue .Rollback false)

/-! ## The repository (`repository.go`) -/

/-- The method `dbEventsRepository.GetStream`. -/
def GetStream (b : Backend) (conn : Conn) (streamID : UUID) : (Stream × Option GoError) × Conn :=
  match queries.GetStream b conn streamID with
  | (.error err, conn₁) =>
    if err.Is .pgxErrNoRows then
      ((default, some (.wrap1 "%w with stream id: %s" [.streamID streamID]
        (.sentinel .ErrStreamNotFound))), conn₁)
    else
      ((default, some (.wrap2 "%w for stream %s because: %w" [.streamID streamID]
        (.sentinel .ErrFailedToGetStream) err)), conn₁)
  | (.ok s, conn₁) => (newStreamFromDatabase s, conn₁)

/-- The method `dbEventsRepository.CreateStream`. -/
def CreateStream (b : Backend) (conn : Conn) (streamToCreate : StreamToCreate) :
    (Stream × Option GoError) × Conn :=
  match queries.CreateStream b conn ⟨streamToCreate.StreamID, streamToCreate.IdempotencyKey⟩ with
  | (.error _, conn₁) => ((default, some (.sentinel .ErrStreamAlreadyExists)), conn₁)
  | (.ok s, conn₁) => (newStreamFromDatabase s, conn₁)

/-- The loop of `GetEvents`: each row is converted and appended to the slice built so far; the
first conversion failure returns the empty slice and the error. -/
def GetEvents.loop : List db.Event → List Event → List Event × Option GoError
  | [], events => (events, none)
  | dbEvent :: rest, events =>
    match newEventFromDatabase dbEvent with
    | (_, some err) => ([], some err)
    | (event, none) => GetEvents.loop rest (events ++ [event])

/-- The method `dbEventsRepository.GetEvents`.  The slice is created by
`make([]Event, len(dbEvents))`, that is with `len(dbEvents)` zero-valued elements, and the
loop appends to it. -/
def GetEvents (b : Backend) (conn : Conn) (streamID : UUID) :
    (List Event × Option GoError) × Conn :=
  match queries.GetEventsForStream b conn streamID with
  | (.error err, conn₁) =>
    (([], some (.wrap2 "%w for stream %s because: %w" [.streamID streamID]
      (.sentinel .ErrCouldNotFetchEventStream) err)), conn₁)
  | (.ok dbEvents, conn₁) =>
    (GetEvents.loop dbEvents (List.replicate dbEvents.length default), conn₁)

/-- The closure `AddEventToStream` passes to `core.InTransaction`.  The arguments of the
insert are evaluated before the insert is issued: on a nil `Payload` the method call
`eventToAdd.Payload.SerializePayload()` panics after the increment and before the insert. -/
def AddEventToStream.work (b : Backend) (eventToAdd : EventToAdd) (tx : Conn) :
    Outcome Event × Conn :=
  match queries.IncrementStreamVersion b tx
      ⟨eventToAdd.StreamID, toInt64 eventToAdd.ExpectedVersion⟩ with
  | (.error err, tx₁) =>
    (.returned default (some (.wrap2 "%w for stream %s using expected version %d because: %w"
      [.streamID eventToAdd.StreamID, .version eventToAdd.ExpectedVersion]
      (.sentinel .ErrCouldNotIncrementStreamVersion) err)), tx₁)
  | (.ok stream, tx₁) =>
    match eventToAdd.Payload.SerializePayload with
    | none => (.panicked, tx₁)
    | some payload =>
      match queries.AddEventToStream b tx₁ ⟨eventToAdd.StreamID, eventToAdd.IdempotencyKey,
          stream.LatestVersion, payload⟩ with
      | (.error err, tx₂) =>
        (.returned default (some (.wrap2 "%w for stream %s because: %w"
          [.streamID eventToAdd.StreamID] (.sentinel .ErrFailedToInsertEventToStream) err)),
          tx₂)
      | (.ok dbEvent, tx₂) =>
        match newEventFromDatabase dbEvent with
        | (_, some err) =>
          (.returned default (some (.wrap1
            "could not create domain event from database because: %w" [] err)), tx₂)
        | (event, none) => (.returned event none, tx₂)

/-- The method `dbEventsRepository.AddEventToStream`.  A panic of the closure is not
recovered and leaves the method panicking. -/
def AddEventToStream (b : Backend) (conn : Conn) (eventToAdd : EventToAdd) :
    Outcome Event × Conn :=
  match InTransaction b conn (AddEventToStream.work b eventToAdd) with
  | (.panicked, conn₁) => (.panicked, conn₁)
  | (.returned result none, conn₁) => (.returned result none, conn₁)
  | (.returned result (some err), conn₁) =>
    if err.Is .ErrCouldNotStartTransaction || err.Is .ErrCouldNotCommitTransaction then
      (.returned result (some (.wrap2 "%w because of %w" []
        (.sentinel .ErrFailedToInsertEventToStream) err)), conn₁)
    else (.returned result (some err), conn₁)

/-! ## Stores reached through the repository -/

/-- One repository call that writes, together with what the backend does during it. -/
inductive Op
  | createStream (b : Backend) (streamToCreate : StreamToCreate)
  | addEventToStream (b : Backend) (eventToAdd : EventToAdd)

/-- The rows after one call issued on a fresh connection to the store. -/
def Op.apply (s : Store) : Op → Store
  | .createStream b a => (CreateStream b ⟨s, []⟩ a).2.store
  | .addEventToStream b e => (AddEventToStream b ⟨s, []⟩ e).2.store

/-- The empty store. -/
def Store.empty : Store := ⟨[], []⟩

/-- The rows after a sequence of calls, one after the other, from the empty store. -/
def run (ops : List Op) : Store :=
  ops.foldl Op.apply Store.empty

/-- The stored version of the stream with the given ID, if there is such a stream. -/
def Store.versionOf (s : Store) (streamID : UUID) : Option Int :=
  (s.streams.find? (fun r => r.StreamID == streamID)).map (fun r => r.LatestVersion)

/-- The stored versions of the events of a stream, in insertion order. -/
def Store.eventVersions (s : Store) (streamID : UUID) : List Int :=
  (s.events.filter (fun e => e.StreamID == streamID)).map (fun e => e.Version)

/-! ## Auxiliary definitions for the statements -/

/-- The row the conditional update of `IncrementStreamVersion` looks for. -/
def targets (e : EventToAdd) (r : db.Stream) : Bool :=
  r.StreamID == e.StreamID && r.LatestVersion == toInt64 e.ExpectedVersion

/-- The error of a failed version increment. -/
def incrementFailure (e : EventToAdd) (err : GoError) : GoError :=
  .wrap2 "%w for stream %s using expected version %d because: %w"
    [.streamID e.StreamID, .version e.ExpectedVersion]
    (.sentinel .ErrCouldNotIncrementStreamVersion) err

/-- The rows of the streams table after a conditional update that matched. -/
def bumped (e : EventToAdd) (streams : List db.Stream) : List db.Stream :=
  streams.map (fun x =>
    if targets e x then { x with LatestVersion := x.LatestVersion + 1 } else x)

/-- The event row an append inserts after incrementing the given stream row. -/
def insertedRow (b : Backend) (e : EventToAdd) (r : db.Stream) (payload : Bytes) : db.Event :=
  ⟨e.StreamID, e.IdempotencyKey, r.LatestVersion + 1, payload, b.now⟩

/-- Stream IDs are unique, every event row belongs to a stream row, and the events of each
stream carry, in insertion order, the versions 1, 2, ..., up to the stream's version. -/
def Store.inv (s : Store) : Prop :=
  (s.streams.map (fun r => r.StreamID)).Nodup ∧
  (∀ ev ∈ s.events, ∃ r ∈ s.streams, r.StreamID = ev.StreamID) ∧
  ∀ r ∈ s.streams, 0 ≤ r.LatestVersion ∧
    s.eventVersions r.StreamID = List.map Int.ofNat (List.range' 1 r.LatestVersion.toNat)

/-- A store with two freshly created streams, used to instantiate the statements. -/
def exampleStore : Store := ⟨[⟨1, 10, 0⟩, ⟨2, 20, 0⟩], []⟩

/-- An append to the first stream of `exampleStore` at the expected version 0, with the two
payload bytes 123 and 125. -/
def exampleEventToAdd : EventToAdd := ⟨1, 100, 0, .impl [123, 125]⟩

/-! ## Lemmas: the branches of the sources -/

theorem toUint64_of_nonneg {i : Int} (h0 : 0 ≤ i) (h : isInt64 i) :
    ((toUint64 i : Nat) : Int) = i := by
  unfold toUint64
  unfold isInt64 maxInt64 at h
  have h1 : i % 2 ^ 64 = i := Int.emod_eq_of_lt h0 (by omega)
  rw [h1, Int.toNat_of_nonneg h0]

theorem toInt64_of_nonneg {v : Nat} (hv : v < 2 ^ 64) (h : 0 ≤ toInt64 v) :
    toInt64 v = (v : Int) := by
  unfold toInt64 at *
  rw [Nat.mod_eq_of_lt hv] at *
  split
  · rfl
  · next hlt =>
    rw [if_neg hlt] at h
    omega

theorem toInt64_of_lt {v : Nat} (hv : v < 2 ^ 63) : toInt64 v = (v : Int) := by
  unfold toInt64
  rw [Nat.mod_eq_of_lt (by omega), if_pos hv]

theorem InTransaction_begin_failed {T : Type} [Inhabited T] (b : Backend) (conn : Conn)
    (fn : Conn → Outcome T × Conn) {c : Nat} (hb : b.beginErr = some c) :
    InTransaction b conn fn =
      (.returned default (some (.sentinel .ErrCouldNotStartTransaction)),
        conn.issue .Begin false) := by
  unfold InTransaction; rw [hb]

theorem InTransaction_work_panicked {T : Type} [Inhabited T] (b : Backend) (conn : Conn)
    (fn : Conn → Outcome T × Conn) (hb : b.beginErr = none)
    (hw : (fn (conn.issue .Begin true)).1 = .panicked) :
    InTransaction b conn fn =
      (.panicked,
        (Conn.mk conn.store (fn (conn.issue .Begin true)).2.log).issue .Rollback true) := by
  unfold InTransaction; rw [hb]; simp only
  rcases hfn : fn (conn.issue .Begin true) with ⟨o, tx⟩
  rw [hfn] at hw; simp only at hw; subst hw; rfl

theorem InTransaction_work_failed {T : Type} [Inhabited T] (b : Backend) (conn : Conn)
    (fn : Conn → Outcome T × Conn) {r : T} {err : GoError} (hb : b.beginErr = none)
    (hw : (fn (conn.issue .Begin true)).1 = .returned r (some err)) :
    InTransaction b conn fn =
      (.returned default (some err),
        (Conn.mk conn.store (fn (conn.issue .Begin true)).2.log).issue .Rollback true) := by
  unfold InTransaction; rw [hb]; simp only
  rcases hfn : fn (conn.issue .Begin true) with ⟨o, tx⟩
  rw [hfn] at hw; simp only at hw; subst hw; rfl

theorem InTransaction_commit_failed {T : Type} [Inhabited T] (b : Backend) (conn : Conn)
    (fn : Conn → Outcome T × Conn) {r : T} {c : Nat} (hb : b.beginErr = none)
    (hw : (fn (conn.issue .Begin true)).1 = .returned r none) (hc : b.commitErr = some c) :
    InTransaction b conn fn =
      (.returned default (some (.sentinel .ErrCouldNotCommitTransaction)),
        ((Conn.mk conn.store (fn (conn.issue .Begin true)).2.log).issue .Commit false).issue
          .Rollback false) := by
  unfold InTransaction; rw [hb]; simp only
  rcases hfn : fn (conn.issue .Begin true) with ⟨o, tx⟩
  rw [hfn] at hw; simp only at hw; subst hw; simp only [hc]

theorem InTransaction_committed {T : Type} [Inhabited T] (b : Backend) (conn : Conn)
    (fn : Conn → Outcome T × Conn) {r : T} (hb : b.beginErr = none)
    (hw : (fn (conn.issue .Begin true)).1 = .returned r none) (hc : b.commitErr = none) :
    InTransaction b conn fn =
      (.returned r none,
        ((fn (conn.issue .Begin true)).2.issue .Commit true).issue .Rollback false) := by
  unfold InTransaction; rw [hb]; simp only
  rcases hfn : fn (conn.issue .Begin true) with ⟨o, tx⟩
  rw [hfn] at hw; simp only at hw; subst hw; simp only [hc]

/-- The branches of the closure of `AddEventToStream`: the increment fails; or it matches a
row and then the payload is nil, the insert fails, or the inserted row is converted. -/
theorem work_cases (b : Backend) (e : EventToAdd) (tx : Conn) :
    (∃ err, (∀ t, t ≠ .pgxErrNoRows → err.Is t = false) ∧ AddEventToStream.work b e tx =
        (.returned default (some (incrementFailure e err)),
          tx.issue .IncrementStreamVersion false) ∧
        (b.incrementErr = none →
          (∀ r ∈ tx.store.streams, targets e r = true → maxInt64 < r.LatestVersion + 1))) ∨
    (∃ r, tx.store.streams.find? (targets e) = some r ∧ r.LatestVersion + 1 ≤ maxInt64 ∧
      b.incrementErr = none ∧
      ((e.Payload = .nil ∧ AddEventToStream.work b e tx =
        (.panicked, (Conn.mk ⟨bumped e tx.store.streams, tx.store.events⟩ tx.log).issue
          .IncrementStreamVersion true)) ∨
      (∃ payload, e.Payload = .impl payload ∧
        ((∃ err, (∀ t, t ≠ .pgxErrNoRows → err.Is t = false) ∧ AddEventToStream.work b e tx =
          (.returned default (some (.wrap2 "%w for stream %s because: %w"
            [.streamID e.StreamID] (.sentinel .ErrFailedToInsertEventToStream) err)),
            ((Conn.mk ⟨bumped e tx.store.streams, tx.store.events⟩ tx.log).issue
              .IncrementStreamVersion true).issue .AddEventToStream false) ∧
            (b.insertErr = none → ∃ ev ∈ tx.store.events,
              ev.StreamID = e.StreamID ∧ ev.IdempotencyKey = e.IdempotencyKey)) ∨
        (b.insertErr = none ∧
          (∀ ev ∈ tx.store.events, ev.StreamID = e.StreamID →
            ev.IdempotencyKey ≠ e.IdempotencyKey) ∧
          AddEventToStream.work b e tx =
            ((match newEventFromDatabase (insertedRow b e r payload) with
              | (_, some err) => .returned default (some (.wrap1
                  "could not create domain event from database because: %w" [] err))
              | (event, none) => .returned event none),
            ((Conn.mk ⟨bumped e tx.store.streams,
              tx.store.events ++ [insertedRow b e r payload]⟩ tx.log).issue
                .IncrementStreamVersion true).issue .AddEventToStream true)))))) := by
  unfold AddEventToStream.work queries.IncrementStreamVersion
  cases hi : b.incrementErr with
  | some c => left; exact ⟨.driver c, fun _ _ => rfl, rfl, by simp⟩
  | none =>
    simp only
    cases hf : tx.store.streams.find? (fun r => r.StreamID == e.StreamID &&
        r.LatestVersion == toInt64 e.ExpectedVersion) with
    | none =>
      left
      refine ⟨.sentinel .pgxErrNoRows,
        fun t ht => by simpa [GoError.Is] using fun h => ht h.symm, rfl, ?_⟩
      intro _ r hr hm
      rw [List.find?_eq_none] at hf
      exact absurd hm (by simpa [targets] using hf r hr)
    | some r =>
      simp only
      have hr := List.find?_some hf
      simp only [Bool.and_eq_true, beq_iff_eq] at hr
      by_cases ho : maxInt64 < r.LatestVersion + 1
      · left
        simp only [ho, if_true]
        refine ⟨.driver 22003, fun _ _ => rfl, rfl, ?_⟩
        intro _ r' _ hm
        simp only [targets, Bool.and_eq_true, beq_iff_eq] at hm
        rw [hm.2, ← hr.2]; exact ho
      · right
        simp only [ho, if_false]
        refine ⟨r, hf, by omega, trivial, ?_⟩
        cases hp : e.Payload with
        | nil => left; exact ⟨rfl, rfl⟩
        | impl payload =>
          right
          refine ⟨payload, rfl, ?_⟩
          simp only [PayloadEvent.SerializePayload]
          unfold queries.AddEventToStream
          cases hins : b.insertErr with
          | some c => left; exact ⟨.driver c, fun _ _ => rfl, rfl, by simp⟩
          | none =>
            simp only [Conn.issue]
            by_cases hd : tx.store.events.any (fun ev => ev.StreamID == e.StreamID &&
                ev.IdempotencyKey == e.IdempotencyKey) = true
            · left
              simp only [hd, if_true]
              refine ⟨.driver 23505, fun _ _ => rfl, rfl, ?_⟩
              intro _
              simpa using hd
            · right
              simp only [hd]
              refine ⟨trivial, ?_, ?_⟩
              · intro ev hev h1 h2
                apply hd
                rw [List.any_eq_true]
                exact ⟨ev, hev, by simp [h1, h2]⟩
              · simp only [Bool.false_eq_true, if_false, insertedRow, hr.1, bumped, targets]
                rcases hconv : newEventFromDatabase ⟨e.StreamID, e.IdempotencyKey,
                  r.LatestVersion + 1, payload, b.now⟩ with ⟨ev, _ | err⟩ <;> rfl
theorem newEventFromDatabase_error (d : db.Event) {err : GoError}
    (h : (newEventFromDatabase d).2 = some err) :
    (err = .sentinel .ErrInvalidStreamVersion ∧ d.Version < 0) ∨
    (err = .sentinel .ErrInvalidEventTimestamp ∧ 0 ≤ d.Version ∧
      (d.RecordedAt.Valid = false ∨ d.RecordedAt.InfinityModifier ≠ .Finite)) := by
  unfold newEventFromDatabase at h
  by_cases hv : d.Version < 0
  · left; simp [hv] at h; exact ⟨h.symm, hv⟩
  · right
    simp only [hv, if_false] at h
    split at h
    · next ht =>
      simp at h
      refine ⟨h.symm, by omega, ?_⟩
      simp at ht
      rcases ht with ht | ht
      · left; exact ht
      · right; exact ht
    · simp at h

theorem work_error_not_transaction (b : Backend) (e : EventToAdd) (tx : Conn) {r : Event}
    {err : GoError} (h : (AddEventToStream.work b e tx).1 = .returned r (some err)) :
    (err.Is .ErrCouldNotStartTransaction || err.Is .ErrCouldNotCommitTransaction) = false := by
  rcases work_cases b e tx with ⟨err', hd, hw, -⟩ |
    ⟨r', -, -, -, ⟨-, hw⟩ | ⟨payload, -, ⟨err', hd, hw, -⟩ | ⟨-, -, hw⟩⟩⟩
  · rw [hw] at h
    simp only [Outcome.returned.injEq, Option.some.injEq] at h
    rw [← h.2]
    simp [incrementFailure, GoError.Is, hd]
  · rw [hw] at h; simp at h
  · rw [hw] at h
    simp only [Outcome.returned.injEq, Option.some.injEq] at h
    rw [← h.2]
    simp [GoError.Is, hd]
  · rw [hw] at h
    rcases hconv : newEventFromDatabase (insertedRow b e r' payload) with ⟨ev, _ | verr⟩
    · rw [hconv] at h; simp at h
    · rw [hconv] at h
      simp only [Outcome.returned.injEq, Option.some.injEq] at h
      rw [← h.2]
      have hverr : (newEventFromDatabase (insertedRow b e r' payload)).2 = some verr := by
        rw [hconv]
      rcases newEventFromDatabase_error _ hverr with ⟨hv, -⟩ | ⟨hv, -⟩ <;> subst hv <;>
        simp [GoError.Is]

theorem AddEventToStream_begin_failed (b : Backend) (conn : Conn) (e : EventToAdd) {c : Nat}
    (hb : b.beginErr = some c) :
    AddEventToStream b conn e =
      (.returned default (some (.wrap2 "%w because of %w" []
        (.sentinel .ErrFailedToInsertEventToStream) (.sentinel .ErrCouldNotStartTransaction))),
        conn.issue .Begin false) := by
  unfold AddEventToStream
  rw [InTransaction_begin_failed b conn _ hb]
  simp [GoError.Is]

theorem AddEventToStream_work_panicked (b : Backend) (conn : Conn) (e : EventToAdd)
    (hb : b.beginErr = none)
    (hw : (AddEventToStream.work b e (conn.issue .Begin true)).1 = .panicked) :
    AddEventToStream b conn e =
      (.panicked, (Conn.mk conn.store
        (AddEventToStream.work b e (conn.issue .Begin true)).2.log).issue .Rollback true) := by
  unfold AddEventToStream
  rw [InTransaction_work_panicked b conn _ hb hw]

theorem AddEventToStream_work_failed (b : Backend) (conn : Conn) (e : EventToAdd)
    {r : Event} {err : GoError} (hb : b.beginErr = none)
    (hw : (AddEventToStream.work b e (conn.issue .Begin true)).1 = .returned r (some err)) :
    AddEventToStream b conn e =
      (.returned default (some err), (Conn.mk conn.store
        (AddEventToStream.work b e (conn.issue .Begin true)).2.log).issue .Rollback true) := by
  unfold AddEventToStream
  rw [InTransaction_work_failed b conn _ hb hw]
  simp only [work_error_not_transaction b e _ hw]
  simp

theorem AddEventToStream_commit_failed (b : Backend) (conn : Conn) (e : EventToAdd)
    {r : Event} {c : Nat} (hb : b.beginErr = none)
    (hw : (AddEventToStream.work b e (conn.issue .Begin true)).1 = .returned r none)
    (hc : b.commitErr = some c) :
    AddEventToStream b conn e =
      (.returned default (some (.wrap2 "%w because of %w" []
        (.sentinel .ErrFailedToInsertEventToStream)
        (.sentinel .ErrCouldNotCommitTransaction))),
        ((Conn.mk conn.store (AddEventToStream.work b e (conn.issue .Begin true)).2.log).issue
          .Commit false).issue .Rollback false) := by
  unfold AddEventToStream
  rw [InTransaction_commit_failed b conn _ hb hw hc]
  simp [GoError.Is]

theorem AddEventToStream_committed (b : Backend) (conn : Conn) (e : EventToAdd) {r : Event}
    (hb : b.beginErr = none)
    (hw : (AddEventToStream.work b e (conn.issue .Begin true)).1 = .returned r none)
    (hc : b.commitErr = none) :
    AddEventToStream b conn e =
      (.returned r none,
        ((AddEventToStream.work b e (conn.issue .Begin true)).2.issue .Commit true).issue
          .Rollback false) := by
  unfold AddEventToStream
  rw [InTransaction_committed b conn _ hb hw hc]

theorem GetEvents_loop_valid (rows : List db.Event) (events : List Event)
    (h : ∀ r ∈ rows, (newEventFromDatabase r).2 = none) :
    GetEvents.loop rows events =
      (events ++ rows.map (fun r => (newEventFromDatabase r).1), none) := by
  induction rows generalizing events with
  | nil => simp [GetEvents.loop]
  | cons d ds ih =>
    have hd := h d (List.mem_cons_self _ _)
    unfold GetEvents.loop
    rcases hc : newEventFromDatabase d with ⟨ev, _ | err⟩
    · simp only
      rw [ih _ (fun r hr => h r (List.mem_cons_of_mem _ hr))]
      simp [hc]
    · rw [hc] at hd; simp at hd

/-- What `GetEvents` returns when the query succeeds and every row converts: as many
zero-valued events as there are rows, followed by the converted rows. -/
theorem GetEvents_returns_padded (b : Backend) (conn conn₁ : Conn) (streamID : UUID)
    (rows : List db.Event)
    (hq : queries.GetEventsForStream b conn streamID = (.ok rows, conn₁))
    (h : ∀ r ∈ rows, (newEventFromDatabase r).2 = none) :
    (GetEvents b conn streamID).1 =
      (List.replicate rows.length default ++ rows.map (fun r => (newEventFromDatabase r).1),
        none) := by
  unfold GetEvents
  rw [hq]
  simp only
  exact GetEvents_loop_valid rows _ h

/-- Every append either does not return without error (it returns an error or panics) and
leaves the rows of the connection as they were, or returns without error having incremented
the targeted stream row and inserted one event row. -/
theorem AddEventToStream_outcome (b : Backend) (conn : Conn) (e : EventToAdd) :
    ((∀ ev, (AddEventToStream b conn e).1 ≠ .returned ev none) ∧
      (AddEventToStream b conn e).2.store = conn.store) ∨
    (∃ r payload ev, (AddEventToStream b conn e).1 = .returned ev none ∧
        conn.store.streams.find? (targets e) = some r ∧ r.LatestVersion + 1 ≤ maxInt64 ∧
        e.Payload = .impl payload ∧
        (∀ ev ∈ conn.store.events, ev.StreamID = e.StreamID →
          ev.IdempotencyKey ≠ e.IdempotencyKey) ∧
        newEventFromDatabase (insertedRow b e r payload) = (ev, none) ∧
        (AddEventToStream b conn e).2.store =
          ⟨bumped e conn.store.streams, conn.store.events ++ [insertedRow b e r payload]⟩) := by
  cases hb : b.beginErr with
  | some c =>
    left
    rw [AddEventToStream_begin_failed b conn e hb]
    exact ⟨by simp, rfl⟩
  | none =>
    rcases work_cases b e (conn.issue .Begin true) with ⟨err', -, hw, -⟩ |
      ⟨r, hf, hr, -, ⟨-, hw⟩ | ⟨payload, hp, ⟨err', -, hw, -⟩ | ⟨-, hk, hw⟩⟩⟩
    · left
      rw [AddEventToStream_work_failed b conn e hb (congrArg Prod.fst hw)]
      exact ⟨by simp, rfl⟩
    · left
      rw [AddEventToStream_work_panicked b conn e hb (congrArg Prod.fst hw)]
      exact ⟨by simp, rfl⟩
    · left
      rw [AddEventToStream_work_failed b conn e hb (congrArg Prod.fst hw)]
      exact ⟨by simp, rfl⟩
    · rcases hconv : newEventFromDatabase (insertedRow b e r payload) with ⟨ev, _ | verr⟩
      · rw [hconv] at hw
        simp only at hw
        cases hc : b.commitErr with
        | some c =>
          left
          rw [AddEventToStream_commit_failed b conn e hb (congrArg Prod.fst hw) hc]
          exact ⟨by simp, rfl⟩
        | none =>
          right
          refine ⟨r, payload, ev, ?_, hf, hr, hp, hk, hconv, ?_⟩
          · rw [AddEventToStream_committed b conn e hb (congrArg Prod.fst hw) hc]
          · rw [AddEventToStream_committed b conn e hb (congrArg Prod.fst hw) hc, hw]
            rfl
      · rw [hconv] at hw
        simp only at hw
        left
        rw [AddEventToStream_work_failed b conn e hb (congrArg Prod.fst hw)]
        exact ⟨by simp, rfl⟩

/-- A stream creation either fails with `ErrStreamAlreadyExists` and leaves the rows as they
were, or appends the new stream row, whose ID and idempotency key no row carried. -/
theorem CreateStream_outcome (b : Backend) (conn : Conn) (a : StreamToCreate) :
    ((CreateStream b conn a).1 = (default, some (.sentinel .ErrStreamAlreadyExists)) ∧
      (CreateStream b conn a).2.store = conn.store) ∨
    ((CreateStream b conn a).1 = (⟨a.StreamID, 0, a.IdempotencyKey⟩, none) ∧
      b.createStreamErr = none ∧
      (∀ r ∈ conn.store.streams,
        r.StreamID ≠ a.StreamID ∧ r.IdempotencyKey ≠ a.IdempotencyKey) ∧
      (CreateStream b conn a).2.store =
        ⟨conn.store.streams ++ [⟨a.StreamID, a.IdempotencyKey, 0⟩], conn.store.events⟩) := by
  unfold CreateStream queries.CreateStream
  cases hb : b.createStreamErr with
  | some c => left; exact ⟨rfl, rfl⟩
  | none =>
    simp only
    by_cases hd : conn.store.streams.any
        (fun r => r.StreamID == a.StreamID || r.IdempotencyKey == a.IdempotencyKey) = true
    · left
      simp only [hd, if_true]
      exact ⟨trivial, rfl⟩
    · right
      simp only [hd]
      refine ⟨?_, trivial, ?_, rfl⟩
      · simp [newStreamFromDatabase, toUint64]
      · intro r hr
        constructor
        · intro h1
          apply hd
          rw [List.any_eq_true]
          exact ⟨r, hr, by simp [h1]⟩
        · intro h1
          apply hd
          rw [List.any_eq_true]
          exact ⟨r, hr, by simp [h1]⟩

theorem bumped_ids (e : EventToAdd) (l : List db.Stream) :
    (bumped e l).map (fun r => r.StreamID) = l.map (fun r => r.StreamID) := by
  unfold bumped
  rw [List.map_map]
  apply List.map_congr_left
  intro x _
  simp only [Function.comp]
  split <;> rfl

theorem find_targets_unique (e : EventToAdd) (l : List db.Stream) (r : db.Stream)
    (hn : (l.map (fun r => r.StreamID)).Nodup) (hf : l.find? (targets e) = some r)
    (x : db.Stream) (hx : x ∈ l) (hid : x.StreamID = e.StreamID) : x = r := by
  have hr := List.find?_some hf
  simp only [targets, Bool.and_eq_true, beq_iff_eq] at hr
  exact List.inj_on_of_nodup_map hn hx (List.mem_of_find?_eq_some hf) (by rw [hid, hr.1])

theorem find_id_of_targets (e : EventToAdd) (l : List db.Stream) (r : db.Stream)
    (hn : (l.map (fun r => r.StreamID)).Nodup) (hf : l.find? (targets e) = some r) :
    l.find? (fun x => x.StreamID == e.StreamID) = some r := by
  cases hg : l.find? (fun x => x.StreamID == e.StreamID) with
  | none =>
    rw [List.find?_eq_none] at hg
    have hr := List.find?_some hf
    simp only [targets, Bool.and_eq_true, beq_iff_eq] at hr
    exact absurd (by simpa using hr.1) (hg r (List.mem_of_find?_eq_some hf))
  | some x =>
    have hx := List.find?_some hg
    simp only [beq_iff_eq] at hx
    rw [find_targets_unique e l r hn hf x (List.mem_of_find?_eq_some hg) hx]

theorem find_id_bumped_other (e : EventToAdd) (l : List db.Stream) (id : UUID)
    (hid : id ≠ e.StreamID) :
    (bumped e l).find? (fun x => x.StreamID == id) = l.find? (fun x => x.StreamID == id) := by
  induction l with
  | nil => rfl
  | cons x xs ih =>
    unfold bumped at ih ⊢
    simp only [List.map_cons, List.find?_cons]
    by_cases ht : targets e x = true
    · have hx : x.StreamID = e.StreamID := by
        simp only [targets, Bool.and_eq_true, beq_iff_eq] at ht; exact ht.1
      have hne : (x.StreamID == id) = false := by
        simp only [beq_eq_false_iff_ne]; rw [hx]; exact fun h => hid h.symm
      simp only [ht, if_true, hne]
      exact ih
    · simp only [ht, Bool.false_eq_true, if_false]
      cases hx : (x.StreamID == id) with
      | true => rfl
      | false => exact ih

theorem find_id_bumped (e : EventToAdd) (l : List db.Stream) (r : db.Stream)
    (hn : (l.map (fun r => r.StreamID)).Nodup) (hf : l.find? (targets e) = some r) :
    (bumped e l).find? (fun x => x.StreamID == e.StreamID) =
      some { r with LatestVersion := r.LatestVersion + 1 } := by
  induction l with
  | nil => simp at hf
  | cons x xs ih =>
    have hn' : (xs.map (fun r => r.StreamID)).Nodup := by
      simp only [List.map_cons, List.nodup_cons] at hn; exact hn.2
    unfold bumped at ih ⊢
    simp only [List.map_cons, List.find?_cons]
    by_cases ht : targets e x = true
    · have hx : x.StreamID = e.StreamID := by
        simp only [targets, Bool.and_eq_true, beq_iff_eq] at ht; exact ht.1
      simp only [List.find?_cons, ht] at hf
      simp only [Option.some.injEq] at hf
      subst hf
      simp [ht, hx]
    · have hxr : x.StreamID ≠ e.StreamID := by
        intro hid
        have := find_targets_unique e (x :: xs) r hn hf x (List.mem_cons_self _ _) hid
        subst this
        have hr := List.find?_some hf
        exact ht hr
      have hf' : xs.find? (targets e) = some r := by
        simpa [List.find?_cons, ht] using hf
      have hne : (x.StreamID == e.StreamID) = false := by
        simp only [beq_eq_false_iff_ne]; exact hxr
      simp only [ht, Bool.false_eq_true, if_false, hne]
      exact ih hn' hf'

theorem inv_empty : Store.empty.inv := by
  refine ⟨?_, ?_, ?_⟩ <;> simp [Store.empty]

theorem inv_CreateStream (s : Store) (b : Backend) (a : StreamToCreate) (h : s.inv) :
    (CreateStream b ⟨s, []⟩ a).2.store.inv := by
  rcases CreateStream_outcome b ⟨s, []⟩ a with ⟨-, hs⟩ | ⟨-, -, hno, hs⟩
  · rw [hs]; exact h
  · rw [hs]
    obtain ⟨h1, h2, h3⟩ := h
    refine ⟨?_, ?_, ?_⟩
    · simp only [List.map_append, List.map_cons, List.map_nil]
      rw [List.nodup_append]
      refine ⟨h1, by simp, ?_⟩
      intro x hx hx'
      simp only [List.mem_singleton] at hx'
      subst hx'
      obtain ⟨r, hr, hrx⟩ := List.mem_map.1 hx
      exact (hno r hr).1 hrx
    · intro ev hev
      obtain ⟨r, hr, hre⟩ := h2 ev hev
      exact ⟨r, List.mem_append_left _ hr, hre⟩
    · intro r hr
      simp only [List.mem_append, List.mem_singleton] at hr
      rcases hr with hr | hr
      · exact h3 r hr
      · subst hr
        refine ⟨le_refl _, ?_⟩
        simp only [Store.eventVersions, Int.toNat_zero, List.range'_zero, List.map_nil,
          List.map_eq_nil_iff, List.filter_eq_nil_iff, beq_iff_eq]
        intro ev hev hid
        obtain ⟨r, hr, hre⟩ := h2 ev hev
        exact (hno r hr).1 (hre.trans hid)

theorem inv_AddEventToStream (s : Store) (b : Backend) (e : EventToAdd) (h : s.inv) :
    (AddEventToStream b ⟨s, []⟩ e).2.store.inv := by
  rcases AddEventToStream_outcome b ⟨s, []⟩ e with ⟨-, hs⟩ | ⟨r, payload, ev, -, hf, -, -, -, -, hs⟩
  · rw [hs]; exact h
  · rw [hs]
    obtain ⟨h1, h2, h3⟩ := h
    have hrmem : r ∈ s.streams := List.mem_of_find?_eq_some hf
    have hrt := List.find?_some hf
    simp only [targets, Bool.and_eq_true, beq_iff_eq] at hrt
    refine ⟨?_, ?_, ?_⟩
    · show ((bumped e s.streams).map (fun r => r.StreamID)).Nodup
      rw [bumped_ids]; exact h1
    · intro ev hev
      have hid : ∀ id, (∃ x ∈ s.streams, x.StreamID = id) →
          ∃ x ∈ bumped e s.streams, x.StreamID = id := by
        intro id ⟨x, hx, hxid⟩
        have : id ∈ (bumped e s.streams).map (fun r => r.StreamID) := by
          rw [bumped_ids]; exact List.mem_map.2 ⟨x, hx, hxid⟩
        obtain ⟨y, hy, hyid⟩ := List.mem_map.1 this
        exact ⟨y, hy, hyid⟩
      simp only [List.mem_append, List.mem_singleton] at hev
      rcases hev with hev | hev
      · exact hid _ (h2 ev hev)
      · subst hev
        exact hid _ ⟨r, hrmem, hrt.1⟩
    · intro r' hr'
      obtain ⟨x, hx, hxr⟩ := List.mem_map.1 hr'
      by_cases ht : targets e x = true
      · have hxe : x = r :=
          find_targets_unique e s.streams r h1 hf x hx (by
            simp only [targets, Bool.and_eq_true, beq_iff_eq] at ht; exact ht.1)
        subst hxe
        simp only [ht, if_true] at hxr
        subst hxr
        obtain ⟨h0, hv⟩ := h3 x hx
        refine ⟨by simp only; omega, ?_⟩
        simp only [Store.eventVersions, List.filter_append, List.map_append] at hv ⊢
        rw [hv]
        simp only [insertedRow, List.filter_cons, List.filter_nil, hrt.1, beq_self_eq_true,
          if_true, List.map_cons, List.map_nil]
        have hn : (x.LatestVersion + 1).toNat = x.LatestVersion.toNat + 1 := by omega
        rw [hn, List.range'_1_concat, List.map_append]
        simp only [List.map_cons, List.map_nil, List.append_cancel_left_eq, List.cons.injEq,
          and_true, Int.ofNat_eq_coe]
        omega
      · simp only [ht, Bool.false_eq_true, if_false] at hxr
        subst hxr
        have hne : x.StreamID ≠ e.StreamID := by
          intro hid
          have := find_targets_unique e s.streams r h1 hf x hx hid
          subst this
          exact ht (List.find?_some hf)
        obtain ⟨h0, hv⟩ := h3 x hx
        refine ⟨h0, ?_⟩
        simp only [Store.eventVersions, List.filter_append, List.map_append] at hv ⊢
        rw [hv]
        have : (e.StreamID == x.StreamID) = false := by
          simp only [beq_eq_false_iff_ne]; exact fun h => hne h.symm
        simp [insertedRow, List.filter_cons, this]

theorem inv_run (ops : List Op) (s : Store) (h : s.inv) : (ops.foldl Op.apply s).inv := by
  induction ops generalizing s with
  | nil => exact h
  | cons op ops ih =>
    simp only [List.foldl_cons]
    apply ih
    cases op with
    | createStream b a => exact inv_CreateStream s b a h
    | addEventToStream b e => exact inv_AddEventToStream s b e h

/-! ## The claims -/

/-- Claim C1 at a concrete input: for a stream whose query returns one row that passes
validation, `GetEvents` returns no error and two events, the zero-valued event followed by the
conversion of the row, so the versions returned are `[0, 1]` and not `[1]`. -/
theorem GetEvents_one_row_returns_two_events :
    (GetEvents (Backend.healthy 0)
        ⟨⟨[⟨1, 10, 1⟩], [⟨1, 100, 1, [123, 125], ⟨5, .Finite, true⟩⟩]⟩, []⟩ 1).1 =
      ([⟨0, 0, 0, []⟩, ⟨1, 1, 5, [123, 125]⟩], none) ∧
    (newEventFromDatabase ⟨1, 100, 1, [123, 125], ⟨5, .Finite, true⟩⟩) =
      (⟨1, 1, 5, [123, 125]⟩, none) ∧
    ((GetEvents (Backend.healthy 0)
        ⟨⟨[⟨1, 10, 1⟩], [⟨1, 100, 1, [123, 125], ⟨5, .Finite, true⟩⟩]⟩, []⟩ 1).1.1.map
          (fun ev => ev.version)) = [0, 1] := by
  decide

/-- Claim C2 fails as stated, at two inputs.  In both the stream exists at the expected
version, the idempotency key is unused and every call the append issues on the backend
succeeds.  With a backend that records an infinite timestamp, the append returns an error, the
wrapped `ErrInvalidEventTimestamp`.  With a nil `Payload`, the append panics after the
increment and returns nothing. -/
theorem append_fails_on_invalid_row_or_nil_payload :
    ((∃ r ∈ exampleStore.streams, r.StreamID = exampleEventToAdd.StreamID ∧
        r.LatestVersion = (exampleEventToAdd.ExpectedVersion : Int)) ∧
      (∀ ev ∈ exampleStore.events, ev.StreamID = exampleEventToAdd.StreamID →
        ev.IdempotencyKey ≠ exampleEventToAdd.IdempotencyKey) ∧
      AddEventToStream { Backend.healthy 5 with now := ⟨0, .NegativeInfinity, true⟩ }
          ⟨exampleStore, []⟩ exampleEventToAdd =
        (.returned default (some (.wrap1
          "could not create domain event from database because: %w" []
          (.sentinel .ErrInvalidEventTimestamp))),
          ⟨exampleStore, [⟨.Begin, true⟩, ⟨.IncrementStreamVersion, true⟩,
            ⟨.AddEventToStream, true⟩, ⟨.Rollback, true⟩]⟩)) ∧
    ((∃ r ∈ exampleStore.streams, r.StreamID = 1 ∧ r.LatestVersion = ((0 : Nat) : Int)) ∧
      (∀ ev ∈ exampleStore.events, ev.StreamID = 1 → ev.IdempotencyKey ≠ 100) ∧
      AddEventToStream (Backend.healthy 5) ⟨exampleStore, []⟩ ⟨1, 100, 0, .nil⟩ =
        (.panicked,
          ⟨exampleStore, [⟨.Begin, true⟩, ⟨.IncrementStreamVersion, true⟩,
            ⟨.Rollback, true⟩]⟩)) := by
  decide

/-- Claim C2 as amended: for a stream that exists with a stored version equal to
`ExpectedVersion`, an `EventToAdd` with a non-nil payload whose idempotency key is not yet
used in that stream, a backend on which no call of the append fails (begin, increment, insert
and commit meet no failure, and the incremented version fits the signed 64-bit version column)
and which records a present, finite timestamp, `AddEventToStream` returns no error and the
event whose version is `ExpectedVersion + 1`, whose stream ID is the requested one, whose
payload is what `SerializePayload` returned and whose timestamp is the recorded one; the calls
issued are the begin, the increment, the insert and the commit, all succeeding, and the
deferred rollback. -/
theorem AddEventToStream_success (b : Backend) (conn : Conn) (e : EventToAdd) (payload : Bytes)
    (hex : ∃ r ∈ conn.store.streams,
      r.StreamID = e.StreamID ∧ r.LatestVersion = (e.ExpectedVersion : Int))
    (hkey : ∀ ev ∈ conn.store.events,
      ev.StreamID = e.StreamID → ev.IdempotencyKey ≠ e.IdempotencyKey)
    (hp : e.Payload = .impl payload)
    (hb : b.beginErr = none ∧ b.incrementErr = none ∧ b.insertErr = none ∧ b.commitErr = none)
    (hroom : e.ExpectedVersion + 1 < 2 ^ 63)
    (hnow : b.now.Valid = true ∧ b.now.InfinityModifier = .Finite) :
    (AddEventToStream b conn e).1 =
      .returned ⟨e.StreamID, e.ExpectedVersion + 1, b.now.Time, payload⟩ none ∧
    e.Payload.SerializePayload = some payload ∧
    (AddEventToStream b conn e).2.log = conn.log ++ [⟨.Begin, true⟩,
      ⟨.IncrementStreamVersion, true⟩, ⟨.AddEventToStream, true⟩, ⟨.Commit, true⟩,
      ⟨.Rollback, false⟩] := by
  obtain ⟨hb1, hb2, hb3, hb4⟩ := hb
  obtain ⟨r₀, hr₀, hid₀, hv₀⟩ := hex
  have hto : toInt64 e.ExpectedVersion = (e.ExpectedVersion : Int) :=
    toInt64_of_lt (by omega)
  have ht₀ : targets e r₀ = true := by
    simp [targets, hid₀, hv₀, hto]
  rcases work_cases b e (conn.issue .Begin true) with ⟨err', -, -, hno⟩ |
    ⟨r, hf, hr, -, ⟨hnil, -⟩ | ⟨payload', hp', ⟨err', -, -, hdup⟩ | ⟨-, -, hw⟩⟩⟩
  · exfalso
    have := hno hb2 r₀ hr₀ ht₀
    rw [hv₀] at this
    unfold maxInt64 at this
    omega
  · rw [hp] at hnil; simp at hnil
  · exfalso
    obtain ⟨ev, hev, h1, h2⟩ := hdup hb3
    exact hkey ev hev h1 h2
  · rw [hp] at hp'
    simp only [PayloadEvent.impl.injEq] at hp'
    subst hp'
    have hrt := List.find?_some hf
    simp only [targets, Bool.and_eq_true, beq_iff_eq] at hrt
    have hrv : r.LatestVersion = (e.ExpectedVersion : Int) := by rw [hrt.2, hto]
    have hver : toUint64 (r.LatestVersion + 1) = e.ExpectedVersion + 1 := by
      have h := toUint64_of_nonneg (i := r.LatestVersion + 1) (by omega) ⟨by omega, hr⟩
      omega
    have hconv : newEventFromDatabase (insertedRow b e r payload) =
        (⟨e.StreamID, e.ExpectedVersion + 1, b.now.Time, payload⟩, none) := by
      unfold newEventFromDatabase insertedRow
      have h1 : ¬ (r.LatestVersion + 1 < 0) := by omega
      simp [h1, hnow.1, hnow.2, hver]
    rw [hconv] at hw
    simp only at hw
    rw [AddEventToStream_committed b conn e hb1 (congrArg Prod.fst hw) hb4, hw]
    refine ⟨rfl, by rw [hp]; rfl, ?_⟩
    simp [Conn.issue]

/-- The amended statement of C2 for the first stream of `exampleStore` and the expected
version 0: the hypotheses hold there, and the append returns version 1 and the payload
handed in. -/
theorem AddEventToStream_success_witness :
    (∃ r ∈ exampleStore.streams, r.StreamID = exampleEventToAdd.StreamID ∧
      r.LatestVersion = (exampleEventToAdd.ExpectedVersion : Int)) ∧
    (∀ ev ∈ exampleStore.events, ev.StreamID = exampleEventToAdd.StreamID →
      ev.IdempotencyKey ≠ exampleEventToAdd.IdempotencyKey) ∧
    exampleEventToAdd.Payload = .impl [123, 125] ∧
    ((Backend.healthy 5).beginErr = none ∧ (Backend.healthy 5).incrementErr = none ∧
      (Backend.healthy 5).insertErr = none ∧ (Backend.healthy 5).commitErr = none) ∧
    exampleEventToAdd.ExpectedVersion + 1 < 2 ^ 63 ∧
    ((Backend.healthy 5).now.Valid = true ∧ (Backend.healthy 5).now.InfinityModifier = .Finite) ∧
    ((AddEventToStream (Backend.healthy 5) ⟨exampleStore, []⟩ exampleEventToAdd).1 =
        .returned ⟨exampleEventToAdd.StreamID, exampleEventToAdd.ExpectedVersion + 1,
          (Backend.healthy 5).now.Time, [123, 125]⟩ none ∧
      exampleEventToAdd.Payload.SerializePayload = some [123, 125] ∧
      (AddEventToStream (Backend.healthy 5) ⟨exampleStore, []⟩ exampleEventToAdd).2.log =
        [] ++ [⟨.Begin, true⟩, ⟨.IncrementStreamVersion, true⟩, ⟨.AddEventToStream, true⟩,
          ⟨.Commit, true⟩, ⟨.Rollback, false⟩]) :=
  ⟨by decide, by decide, rfl, by decide, by decide, by decide,
    AddEventToStream_success (Backend.healthy 5) ⟨exampleStore, []⟩ exampleEventToAdd
      [123, 125] (by decide) (by decide) rfl (by decide) (by decide) (by decide)⟩

/-- Claim C3: on a store whose stream IDs are unique, an `AddEventToStream` attempt either
returns no error, advances the version of the target stream by exactly 1, leaves every other
stream's version and the set of streams as they were and adds exactly one event row (of the
target stream, at the new version), or leaves the rows identical to those before the call;
whenever it returns an error, and also when it panics, the rows are identical to those before
the call. -/
theorem AddEventToStream_atomic (b : Backend) (conn : Conn) (e : EventToAdd)
    (hs : (conn.store.streams.map (fun r => r.StreamID)).Nodup) :
    (((∃ ev, (AddEventToStream b conn e).1 = .returned ev none) ∧ ∃ v row,
        conn.store.versionOf e.StreamID = some v ∧
        (AddEventToStream b conn e).2.store.versionOf e.StreamID = some (v + 1) ∧
        (∀ id, id ≠ e.StreamID →
          (AddEventToStream b conn e).2.store.versionOf id = conn.store.versionOf id) ∧
        (AddEventToStream b conn e).2.store.streams.map (fun r => r.StreamID) =
          conn.store.streams.map (fun r => r.StreamID) ∧
        (AddEventToStream b conn e).2.store.events = conn.store.events ++ [row] ∧
        row.StreamID = e.StreamID ∧ row.Version = v + 1) ∨
      (AddEventToStream b conn e).2.store = conn.store) ∧
    (∀ r err, (AddEventToStream b conn e).1 = .returned r (some err) →
      (AddEventToStream b conn e).2.store = conn.store) ∧
    ((AddEventToStream b conn e).1 = .panicked →
      (AddEventToStream b conn e).2.store = conn.store) := by
  rcases AddEventToStream_outcome b conn e with
    ⟨herr, hst⟩ | ⟨r, payload, ev, hok, hf, -, -, -, -, hst⟩
  · exact ⟨Or.inr hst, fun _ _ _ => hst, fun _ => hst⟩
  · refine ⟨Or.inl ⟨⟨ev, hok⟩, r.LatestVersion, insertedRow b e r payload,
      ?_, ?_, ?_, ?_, ?_, rfl, rfl⟩, ?_, ?_⟩
    · simp only [Store.versionOf, find_id_of_targets e _ r hs hf, Option.map_some']
    · rw [hst]
      simp only [Store.versionOf, find_id_bumped e _ r hs hf, Option.map_some']
    · intro id hid
      rw [hst]
      simp only [Store.versionOf, find_id_bumped_other e _ id hid]
    · rw [hst]
      exact bumped_ids e _
    · rw [hst]
    · intro r' err h
      rw [hok] at h
      simp at h
    · intro h
      rw [hok] at h
      simp at h

/-- The statement of C3 for a successful append to `exampleStore`, for an append whose
commit fails and for an append with a nil payload. -/
theorem AddEventToStream_atomic_witness :
    (exampleStore.streams.map (fun r => r.StreamID)).Nodup ∧
    ((((∃ ev, (AddEventToStream (Backend.healthy 5) ⟨exampleStore, []⟩
          exampleEventToAdd).1 = .returned ev none) ∧
        ∃ v row,
        exampleStore.versionOf 1 = some v ∧
        (AddEventToStream (Backend.healthy 5) ⟨exampleStore, []⟩
          exampleEventToAdd).2.store.versionOf 1 = some (v + 1) ∧
        (∀ id, id ≠ 1 →
          (AddEventToStream (Backend.healthy 5) ⟨exampleStore, []⟩
            exampleEventToAdd).2.store.versionOf id = exampleStore.versionOf id) ∧
        (AddEventToStream (Backend.healthy 5) ⟨exampleStore, []⟩
          exampleEventToAdd).2.store.streams.map (fun r => r.StreamID) =
          exampleStore.streams.map (fun r => r.StreamID) ∧
        (AddEventToStream (Backend.healthy 5) ⟨exampleStore, []⟩
          exampleEventToAdd).2.store.events = exampleStore.events ++ [row] ∧
        row.StreamID = 1 ∧ row.Version = v + 1) ∨
      (AddEventToStream (Backend.healthy 5) ⟨exampleStore, []⟩ exampleEventToAdd).2.store =
        exampleStore) ∧
    (∀ r err, (AddEventToStream (Backend.healthy 5) ⟨exampleStore, []⟩
        exampleEventToAdd).1 = .returned r (some err) →
      (AddEventToStream (Backend.healthy 5) ⟨exampleStore, []⟩ exampleEventToAdd).2.store =
        exampleStore) ∧
    ((AddEventToStream (Backend.healthy 5) ⟨exampleStore, []⟩ exampleEventToAdd).1 =
        .panicked →
      (AddEventToStream (Backend.healthy 5) ⟨exampleStore, []⟩ exampleEventToAdd).2.store =
        exampleStore)) ∧
    (AddEventToStream (Backend.healthy 5) ⟨exampleStore, []⟩ exampleEventToAdd).2.store =
      ⟨[⟨1, 10, 1⟩, ⟨2, 20, 0⟩], [⟨1, 100, 1, [123, 125], ⟨5, .Finite, true⟩⟩]⟩ ∧
    (AddEventToStream { Backend.healthy 5 with commitErr := some 40001 } ⟨exampleStore, []⟩
      exampleEventToAdd).2.store = exampleStore ∧
    (AddEventToStream (Backend.healthy 5) ⟨exampleStore, []⟩ ⟨1, 100, 0, .nil⟩).2.store =
      exampleStore :=
  ⟨by decide,
    AddEventToStream_atomic (Backend.healthy 5) ⟨exampleStore, []⟩ exampleEventToAdd
      (by decide),
    by decide,
    (AddEventToStream_atomic { Backend.healthy 5 with commitErr := some 40001 }
      ⟨exampleStore, []⟩ exampleEventToAdd (by decide)).2.1 default
        (.wrap2 "%w because of %w" [] (.sentinel .ErrFailedToInsertEventToStream)
          (.sentinel .ErrCouldNotCommitTransaction)) (by decide),
    (AddEventToStream_atomic (Backend.healthy 5) ⟨exampleStore, []⟩ ⟨1, 100, 0, .nil⟩
      (by decide)).2.2 (by decide)⟩

/-- Claim C4: on a store whose stream versions are non-negative, when the transaction begins
and no stream row has the requested ID together with the expected version (the stream is
absent or its version differs), `AddEventToStream` fails with an error that is an
`ErrCouldNotIncrementStreamVersion` formatted from the stream ID and the expected version;
the calls issued are the begin, the failed increment and the rollback, so the insert is never
issued, and the rows are as before. -/
theorem AddEventToStream_version_mismatch (b : Backend) (conn : Conn) (e : EventToAdd)
    (hb : b.beginErr = none)
    (hv : ∀ r ∈ conn.store.streams, 0 ≤ r.LatestVersion)
    (he : e.ExpectedVersion < 2 ^ 64)
    (h : ∀ r ∈ conn.store.streams, r.StreamID = e.StreamID →
      r.LatestVersion ≠ (e.ExpectedVersion : Int)) :
    ∃ err cause, (AddEventToStream b conn e).1 = .returned default (some err) ∧
      err = .wrap2 "%w for stream %s using expected version %d because: %w"
        [.streamID e.StreamID, .version e.ExpectedVersion]
        (.sentinel .ErrCouldNotIncrementStreamVersion) cause ∧
      err.Is .ErrCouldNotIncrementStreamVersion = true ∧
      FmtArg.streamID e.StreamID ∈ err.operands ∧
      FmtArg.version e.ExpectedVersion ∈ err.operands ∧
      (AddEventToStream b conn e).2 = ⟨conn.store, conn.log ++
        [⟨.Begin, true⟩, ⟨.IncrementStreamVersion, false⟩, ⟨.Rollback, true⟩]⟩ := by
  rcases work_cases b e (conn.issue .Begin true) with ⟨cause, -, hw, -⟩ | ⟨r, hf, -, -, -⟩
  · rw [AddEventToStream_work_failed b conn e hb (congrArg Prod.fst hw), hw]
    refine ⟨_, cause, rfl, rfl, by simp [GoError.Is], by simp [GoError.operands],
      by simp [GoError.operands], ?_⟩
    simp [Conn.issue]
  · exfalso
    have hmem : r ∈ conn.store.streams := List.mem_of_find?_eq_some hf
    have hr := List.find?_some hf
    simp only [targets, Bool.and_eq_true, beq_iff_eq] at hr
    have h0 := hv r hmem
    rw [hr.2] at h0
    exact h r hmem hr.1 (by rw [hr.2]; exact toInt64_of_nonneg he h0)

/-- The statement of C4 for a stream that does not exist (ID 7) and for a stale expected
version (the first stream of `exampleStore` is at version 0, the append expects 4). -/
theorem AddEventToStream_version_mismatch_witness :
    ((Backend.healthy 5).beginErr = none ∧
      (∀ r ∈ exampleStore.streams, 0 ≤ r.LatestVersion) ∧
      ((4 : Nat) < 2 ^ 64) ∧
      (∀ r ∈ exampleStore.streams, r.StreamID = 1 → r.LatestVersion ≠ ((4 : Nat) : Int)) ∧
      ∃ err cause, (AddEventToStream (Backend.healthy 5) ⟨exampleStore, []⟩
          ⟨1, 100, 4, .impl [123, 125]⟩).1 = .returned default (some err) ∧
        err = .wrap2 "%w for stream %s using expected version %d because: %w"
          [.streamID 1, .version 4] (.sentinel .ErrCouldNotIncrementStreamVersion) cause ∧
        err.Is .ErrCouldNotIncrementStreamVersion = true ∧
        FmtArg.streamID 1 ∈ err.operands ∧
        FmtArg.version 4 ∈ err.operands ∧
        (AddEventToStream (Backend.healthy 5) ⟨exampleStore, []⟩
          ⟨1, 100, 4, .impl [123, 125]⟩).2 = ⟨exampleStore, [] ++
          [⟨.Begin, true⟩, ⟨.IncrementStreamVersion, false⟩, ⟨.Rollback, true⟩]⟩) ∧
    (∃ err cause, (AddEventToStream (Backend.healthy 5) ⟨exampleStore, []⟩
          ⟨7, 100, 0, .impl []⟩).1 = .returned default (some err) ∧
        err = .wrap2 "%w for stream %s using expected version %d because: %w"
          [.streamID 7, .version 0] (.sentinel .ErrCouldNotIncrementStreamVersion) cause ∧
        err.Is .ErrCouldNotIncrementStreamVersion = true ∧
        FmtArg.streamID 7 ∈ err.operands ∧
        FmtArg.version 0 ∈ err.operands ∧
        (AddEventToStream (Backend.healthy 5) ⟨exampleStore, []⟩
          ⟨7, 100, 0, .impl []⟩).2 = ⟨exampleStore, [] ++
          [⟨.Begin, true⟩, ⟨.IncrementStreamVersion, false⟩, ⟨.Rollback, true⟩]⟩) :=
  ⟨⟨rfl, by decide, by decide, by decide,
    AddEventToStream_version_mismatch (Backend.healthy 5) ⟨exampleStore, []⟩
      ⟨1, 100, 4, .impl [123, 125]⟩ rfl (by decide) (by decide) (by decide)⟩,
   AddEventToStream_version_mismatch (Backend.healthy 5) ⟨exampleStore, []⟩
      ⟨7, 100, 0, .impl []⟩ rfl (by decide) (by decide) (by decide)⟩

/-- Claim C5: of two `CreateStream` calls issued one after the other that share the
idempotency key (with distinct stream IDs) or the stream ID (with distinct idempotency keys),
if the first succeeds then the second fails with `ErrStreamAlreadyExists` and leaves the rows
as the first call left them: the first stream row is the only one added. -/
theorem CreateStream_second_fails (s : Store) (b₁ b₂ : Backend) (a₁ a₂ : StreamToCreate)
    (h : (a₁.IdempotencyKey = a₂.IdempotencyKey ∧ a₁.StreamID ≠ a₂.StreamID) ∨
      (a₁.StreamID = a₂.StreamID ∧ a₁.IdempotencyKey ≠ a₂.IdempotencyKey))
    (h₁ : (CreateStream b₁ ⟨s, []⟩ a₁).1.2 = none) :
    (CreateStream b₂ ⟨(CreateStream b₁ ⟨s, []⟩ a₁).2.store, []⟩ a₂).1 =
      (default, some (.sentinel .ErrStreamAlreadyExists)) ∧
    (CreateStream b₂ ⟨(CreateStream b₁ ⟨s, []⟩ a₁).2.store, []⟩ a₂).2.store =
      (CreateStream b₁ ⟨s, []⟩ a₁).2.store ∧
    (CreateStream b₁ ⟨s, []⟩ a₁).2.store =
      ⟨s.streams ++ [⟨a₁.StreamID, a₁.IdempotencyKey, 0⟩], s.events⟩ := by
  rcases CreateStream_outcome b₁ ⟨s, []⟩ a₁ with ⟨he, -⟩ | ⟨-, -, -, hst⟩
  · rw [he] at h₁; simp at h₁
  · refine ⟨?_, ?_, hst⟩
    · rcases CreateStream_outcome b₂ ⟨(CreateStream b₁ ⟨s, []⟩ a₁).2.store, []⟩ a₂ with
        ⟨he, -⟩ | ⟨-, -, hno, -⟩
      · exact he
      · exfalso
        have hmem : (⟨a₁.StreamID, a₁.IdempotencyKey, 0⟩ : db.Stream) ∈
            (CreateStream b₁ ⟨s, []⟩ a₁).2.store.streams := by
          rw [hst]; simp
        have := hno _ hmem
        rcases h with ⟨hk, -⟩ | ⟨hi, -⟩
        · exact this.2 hk
        · exact this.1 hi
    · rcases CreateStream_outcome b₂ ⟨(CreateStream b₁ ⟨s, []⟩ a₁).2.store, []⟩ a₂ with
        ⟨-, hs⟩ | ⟨-, -, hno, -⟩
      · exact hs
      · exfalso
        have hmem : (⟨a₁.StreamID, a₁.IdempotencyKey, 0⟩ : db.Stream) ∈
            (CreateStream b₁ ⟨s, []⟩ a₁).2.store.streams := by
          rw [hst]; simp
        have := hno _ hmem
        rcases h with ⟨hk, -⟩ | ⟨hi, -⟩
        · exact this.2 hk
        · exact this.1 hi

/-- The statement of C5 on the empty store, for a shared idempotency key and for a shared
stream ID. -/
theorem CreateStream_second_fails_witness :
    (((⟨1, 10⟩ : StreamToCreate).IdempotencyKey = (⟨2, 10⟩ : StreamToCreate).IdempotencyKey ∧
        (⟨1, 10⟩ : StreamToCreate).StreamID ≠ (⟨2, 10⟩ : StreamToCreate).StreamID) ∧
      (CreateStream (Backend.healthy 5) ⟨Store.empty, []⟩ ⟨1, 10⟩).1.2 = none ∧
      (CreateStream (Backend.healthy 5)
          ⟨(CreateStream (Backend.healthy 5) ⟨Store.empty, []⟩ ⟨1, 10⟩).2.store, []⟩
            ⟨2, 10⟩).1 = (default, some (.sentinel .ErrStreamAlreadyExists)) ∧
      (CreateStream (Backend.healthy 5)
          ⟨(CreateStream (Backend.healthy 5) ⟨Store.empty, []⟩ ⟨1, 10⟩).2.store, []⟩
            ⟨2, 10⟩).2.store =
        (CreateStream (Backend.healthy 5) ⟨Store.empty, []⟩ ⟨1, 10⟩).2.store ∧
      (CreateStream (Backend.healthy 5) ⟨Store.empty, []⟩ ⟨1, 10⟩).2.store =
        ⟨Store.empty.streams ++ [⟨1, 10, 0⟩], Store.empty.events⟩) ∧
    (((⟨1, 10⟩ : StreamToCreate).StreamID = (⟨1, 11⟩ : StreamToCreate).StreamID ∧
        (⟨1, 10⟩ : StreamToCreate).IdempotencyKey ≠ (⟨1, 11⟩ : StreamToCreate).IdempotencyKey) ∧
      (CreateStream (Backend.healthy 5)
          ⟨(CreateStream (Backend.healthy 5) ⟨Store.empty, []⟩ ⟨1, 10⟩).2.store, []⟩
            ⟨1, 11⟩).1 = (default, some (.sentinel .ErrStreamAlreadyExists)) ∧
      (CreateStream (Backend.healthy 5)
          ⟨(CreateStream (Backend.healthy 5) ⟨Store.empty, []⟩ ⟨1, 10⟩).2.store, []⟩
            ⟨1, 11⟩).2.store =
        (CreateStream (Backend.healthy 5) ⟨Store.empty, []⟩ ⟨1, 10⟩).2.store ∧
      (CreateStream (Backend.healthy 5) ⟨Store.empty, []⟩ ⟨1, 10⟩).2.store =
        ⟨Store.empty.streams ++ [⟨1, 10, 0⟩], Store.empty.events⟩) :=
  ⟨⟨⟨rfl, by decide⟩, by decide,
    CreateStream_second_fails Store.empty (Backend.healthy 5) (Backend.healthy 5) ⟨1, 10⟩
      ⟨2, 10⟩ (Or.inl ⟨rfl, by decide⟩) (by decide)⟩,
   ⟨rfl, by decide⟩,
    CreateStream_second_fails Store.empty (Backend.healthy 5) (Backend.healthy 5) ⟨1, 10⟩
      ⟨1, 11⟩ (Or.inr ⟨rfl, by decide⟩) (by decide)⟩

/-- Claim C6: `InTransaction` returns `(r, nil)` exactly when `Begin` succeeds, the work
returns `(r, nil)` and `Commit` succeeds.  If `Begin` fails it returns
`ErrCouldNotStartTransaction` and the work is not invoked: the only call logged is the failed
begin and the outcome is the same for every work function.  If the work returns an error, that
very error is returned and no commit is attempted: the only call after the work is the
rollback and the outcome does not depend on what `Commit` would do.  If the work succeeds and
`Commit` fails it returns `ErrCouldNotCommitTransaction`.  If the work panics, so does
`InTransaction`, after the rollback and without a commit. -/
theorem InTransaction_spec {T : Type} [Inhabited T] (b : Backend) (conn : Conn)
    (fn : Conn → Outcome T × Conn) :
    (∀ r, (InTransaction b conn fn).1 = .returned r none ↔
      (b.beginErr = none ∧ (fn (conn.issue .Begin true)).1 = .returned r none ∧
        b.commitErr = none)) ∧
    (b.beginErr ≠ none →
      (InTransaction b conn fn).1 =
        .returned default (some (.sentinel .ErrCouldNotStartTransaction)) ∧
      (InTransaction b conn fn).2 = conn.issue .Begin false ∧
      ∀ fn' : Conn → Outcome T × Conn, InTransaction b conn fn' = InTransaction b conn fn) ∧
    (∀ r err, b.beginErr = none →
      (fn (conn.issue .Begin true)).1 = .returned r (some err) →
      (InTransaction b conn fn).1 = .returned default (some err) ∧
      (InTransaction b conn fn).2.log =
        (fn (conn.issue .Begin true)).2.log ++ [⟨.Rollback, true⟩] ∧
      ∀ c, InTransaction { b with commitErr := c } conn fn = InTransaction b conn fn) ∧
    (∀ r, b.beginErr = none → (fn (conn.issue .Begin true)).1 = .returned r none →
      b.commitErr ≠ none →
      (InTransaction b conn fn).1 =
        .returned default (some (.sentinel .ErrCouldNotCommitTransaction))) ∧
    (b.beginErr = none → (fn (conn.issue .Begin true)).1 = .panicked →
      (InTransaction b conn fn).1 = .panicked ∧
      (InTransaction b conn fn).2 =
        ⟨conn.store, (fn (conn.issue .Begin true)).2.log ++ [⟨.Rollback, true⟩]⟩) := by
  refine ⟨?_, ?_, ?_, ?_, ?_⟩
  · intro r
    cases hb : b.beginErr with
    | some c => rw [InTransaction_begin_failed b conn fn hb]; simp
    | none =>
      cases hw : (fn (conn.issue .Begin true)).1 with
      | panicked => rw [InTransaction_work_panicked b conn fn hb hw]; simp
      | returned r' oerr =>
        cases oerr with
        | some err => rw [InTransaction_work_failed b conn fn hb hw]; simp
        | none =>
          cases hc : b.commitErr with
          | some c => rw [InTransaction_commit_failed b conn fn hb hw hc]; simp
          | none => rw [InTransaction_committed b conn fn hb hw hc]; simp
  · intro hb
    cases hb' : b.beginErr with
    | none => exact absurd hb' hb
    | some c =>
      refine ⟨?_, ?_, ?_⟩
      · rw [InTransaction_begin_failed b conn fn hb']
      · rw [InTransaction_begin_failed b conn fn hb']
      · intro fn'
        rw [InTransaction_begin_failed b conn fn hb', InTransaction_begin_failed b conn fn' hb']
  · intro r err hb hw
    refine ⟨?_, ?_, ?_⟩
    · rw [InTransaction_work_failed b conn fn hb hw]
    · rw [InTransaction_work_failed b conn fn hb hw]; rfl
    · intro c
      rw [InTransaction_work_failed b conn fn hb hw,
        InTransaction_work_failed { b with commitErr := c } conn fn hb hw]
  · intro r hb hw hc
    cases hc' : b.commitErr with
    | none => exact absurd hc' hc
    | some c => rw [InTransaction_commit_failed b conn fn hb hw hc']
  · intro hb hw
    rw [InTransaction_work_panicked b conn fn hb hw]
    exact ⟨rfl, rfl⟩

/-- The cases of C6 for a work function that issues one query and returns 7, for one that
returns the driver error 57014 and for one that panics. -/
theorem InTransaction_spec_witness :
    (InTransaction (Backend.healthy 5) ⟨exampleStore, []⟩
      (fun tx => (.returned (7 : Nat) none, tx.issue .GetStream true))).1 =
        .returned 7 none ∧
    (InTransaction { Backend.healthy 5 with beginErr := some 8006 } ⟨exampleStore, []⟩
      (fun tx => (.returned (7 : Nat) none, tx.issue .GetStream true))).1 =
        .returned default (some (.sentinel .ErrCouldNotStartTransaction)) ∧
    (InTransaction (Backend.healthy 5) ⟨exampleStore, []⟩
      (fun tx => (.returned (0 : Nat) (some (.driver 57014)), tx.issue .GetStream false))).1 =
        .returned default (some (.driver 57014)) ∧
    (InTransaction { Backend.healthy 5 with commitErr := some 40001 } ⟨exampleStore, []⟩
      (fun tx => (.returned (7 : Nat) none, tx.issue .GetStream true))).1 =
        .returned default (some (.sentinel .ErrCouldNotCommitTransaction)) ∧
    (InTransaction (Backend.healthy 5) ⟨exampleStore, []⟩
      (fun tx => ((.panicked : Outcome Nat), tx.issue .GetStream true))).1 = .panicked :=
  ⟨((InTransaction_spec (Backend.healthy 5) ⟨exampleStore, []⟩
      (fun tx => (.returned (7 : Nat) none, tx.issue .GetStream true))).1 7).2
        ⟨rfl, rfl, rfl⟩,
   ((InTransaction_spec { Backend.healthy 5 with beginErr := some 8006 } ⟨exampleStore, []⟩
      (fun tx => (.returned (7 : Nat) none, tx.issue .GetStream true))).2.1 (by decide)).1,
   ((InTransaction_spec (Backend.healthy 5) ⟨exampleStore, []⟩
      (fun tx => (.returned (0 : Nat) (some (.driver 57014)),
        tx.issue .GetStream false))).2.2.1 0 (.driver 57014) rfl rfl).1,
   (InTransaction_spec { Backend.healthy 5 with commitErr := some 40001 } ⟨exampleStore, []⟩
      (fun tx => (.returned (7 : Nat) none, tx.issue .GetStream true))).2.2.2.1 7 rfl rfl
        (by decide),
   ((InTransaction_spec (Backend.healthy 5) ⟨exampleStore, []⟩
      (fun tx => ((.panicked : Outcome Nat), tx.issue .GetStream true))).2.2.2.2 rfl rfl).1⟩

/-- Claim C7 fails as stated: with a stream at version 0 and a backend that records an
absent timestamp, the increment and the insert succeed, the conversion fails, and the error
returned wraps `ErrInvalidEventTimestamp` only: `errors.Is(err, ErrFailedToInsertEventToStream)`
is false.  No commit is issued. -/
theorem conversion_failure_is_not_insert_failure :
    (AddEventToStream { Backend.healthy 5 with now := ⟨0, .Finite, false⟩ }
        ⟨⟨[⟨1, 10, 0⟩], []⟩, []⟩ ⟨1, 100, 0, .impl [123, 125]⟩) =
      (.returned default (some (.wrap1
        "could not create domain event from database because: %w" []
        (.sentinel .ErrInvalidEventTimestamp))),
        ⟨⟨[⟨1, 10, 0⟩], []⟩, [⟨.Begin, true⟩, ⟨.IncrementStreamVersion, true⟩,
          ⟨.AddEventToStream, true⟩, ⟨.Rollback, true⟩]⟩) ∧
    GoError.Is (.wrap1 "could not create domain event from database because: %w" []
        (.sentinel .ErrInvalidEventTimestamp)) .ErrFailedToInsertEventToStream = false := by
  decide

/-- Claim C7 as amended: when the version increment and the event insert succeed and the
conversion of the inserted row fails with `verr`, `AddEventToStream` returns
`fmt.Errorf("could not create domain event from database because: %w", verr)`, where `verr`
is `ErrInvalidStreamVersion` or `ErrInvalidEventTimestamp`; the error is that validation
failure under `errors.Is`, it is not an `ErrFailedToInsertEventToStream`, and the transaction
is rolled back without a commit: the rows are as before and the only call after the insert is
the rollback. -/
theorem AddEventToStream_materialization_failure (b : Backend) (conn tx₁ tx₂ : Conn)
    (e : EventToAdd) (stream : db.Stream) (payload : Bytes) (dbEvent : db.Event)
    (verr : GoError)
    (hb : b.beginErr = none)
    (hinc : queries.IncrementStreamVersion b (conn.issue .Begin true)
      ⟨e.StreamID, toInt64 e.ExpectedVersion⟩ = (.ok stream, tx₁))
    (hp : e.Payload.SerializePayload = some payload)
    (hins : queries.AddEventToStream b tx₁ ⟨e.StreamID, e.IdempotencyKey, stream.LatestVersion,
      payload⟩ = (.ok dbEvent, tx₂))
    (hconv : (newEventFromDatabase dbEvent).2 = some verr) :
    ∃ err, (AddEventToStream b conn e).1 = .returned default (some err) ∧
      err = .wrap1 "could not create domain event from database because: %w" [] verr ∧
      (verr = .sentinel .ErrInvalidStreamVersion ∨
        verr = .sentinel .ErrInvalidEventTimestamp) ∧
      (err.Is .ErrInvalidStreamVersion = true ∨ err.Is .ErrInvalidEventTimestamp = true) ∧
      err.Is .ErrFailedToInsertEventToStream = false ∧
      (AddEventToStream b conn e).2 = ⟨conn.store, tx₂.log ++ [⟨.Rollback, true⟩]⟩ := by
  have hw : AddEventToStream.work b e (conn.issue .Begin true) =
      (.returned default (some (.wrap1
        "could not create domain event from database because: %w" [] verr)), tx₂) := by
    unfold AddEventToStream.work
    rw [hinc]; simp only; rw [hp]; simp only; rw [hins]; simp only
    rcases hc : newEventFromDatabase dbEvent with ⟨ev, _ | err⟩
    · rw [hc] at hconv; simp at hconv
    · rw [hc] at hconv; simp only [Option.some.injEq] at hconv; subst hconv; rfl
  rw [AddEventToStream_work_failed b conn e hb (congrArg Prod.fst hw), hw]
  have hv : verr = .sentinel .ErrInvalidStreamVersion ∨
      verr = .sentinel .ErrInvalidEventTimestamp := by
    rcases newEventFromDatabase_error _ hconv with ⟨h, -⟩ | ⟨h, -⟩
    · exact Or.inl h
    · exact Or.inr h
  refine ⟨_, rfl, rfl, hv, ?_, ?_, rfl⟩
  · rcases hv with h | h <;> subst h <;> simp [GoError.Is]
  · rcases hv with h | h <;> subst h <;> simp [GoError.Is]

/-- The amended statement of C7 at a backend that records an infinite timestamp: the
hypotheses hold there, and the error wraps `ErrInvalidEventTimestamp`. -/
theorem AddEventToStream_materialization_failure_witness :
    ({ Backend.healthy 5 with now := ⟨0, .Infinity, true⟩ } : Backend).beginErr = none ∧
    queries.IncrementStreamVersion { Backend.healthy 5 with now := ⟨0, .Infinity, true⟩ }
      (Conn.issue ⟨⟨[⟨1, 10, 0⟩], []⟩, []⟩ .Begin true) ⟨1, toInt64 0⟩ =
      (.ok ⟨1, 10, 1⟩,
        ⟨⟨[⟨1, 10, 1⟩], []⟩, [⟨.Begin, true⟩, ⟨.IncrementStreamVersion, true⟩]⟩) ∧
    (PayloadEvent.impl [123, 125]).SerializePayload = some [123, 125] ∧
    queries.AddEventToStream { Backend.healthy 5 with now := ⟨0, .Infinity, true⟩ }
      ⟨⟨[⟨1, 10, 1⟩], []⟩, [⟨.Begin, true⟩, ⟨.IncrementStreamVersion, true⟩]⟩
      ⟨1, 100, 1, [123, 125]⟩ =
      (.ok ⟨1, 100, 1, [123, 125], ⟨0, .Infinity, true⟩⟩,
        ⟨⟨[⟨1, 10, 1⟩], [⟨1, 100, 1, [123, 125], ⟨0, .Infinity, true⟩⟩]⟩,
          [⟨.Begin, true⟩, ⟨.IncrementStreamVersion, true⟩, ⟨.AddEventToStream, true⟩]⟩) ∧
    (newEventFromDatabase ⟨1, 100, 1, [123, 125], ⟨0, .Infinity, true⟩⟩).2 =
      some (.sentinel .ErrInvalidEventTimestamp) ∧
    (∃ err, (AddEventToStream { Backend.healthy 5 with now := ⟨0, .Infinity, true⟩ }
        ⟨⟨[⟨1, 10, 0⟩], []⟩, []⟩ ⟨1, 100, 0, .impl [123, 125]⟩).1 =
          .returned default (some err) ∧
      err = .wrap1 "could not create domain event from database because: %w" []
        (.sentinel .ErrInvalidEventTimestamp) ∧
      ((GoError.sentinel .ErrInvalidEventTimestamp) = .sentinel .ErrInvalidStreamVersion ∨
        (GoError.sentinel .ErrInvalidEventTimestamp) = .sentinel .ErrInvalidEventTimestamp) ∧
      (err.Is .ErrInvalidStreamVersion = true ∨ err.Is .ErrInvalidEventTimestamp = true) ∧
      err.Is .ErrFailedToInsertEventToStream = false ∧
      (AddEventToStream { Backend.healthy 5 with now := ⟨0, .Infinity, true⟩ }
        ⟨⟨[⟨1, 10, 0⟩], []⟩, []⟩ ⟨1, 100, 0, .impl [123, 125]⟩).2 =
        ⟨⟨[⟨1, 10, 0⟩], []⟩, [⟨.Begin, true⟩, ⟨.IncrementStreamVersion, true⟩,
            ⟨.AddEventToStream, true⟩] ++ [⟨.Rollback, true⟩]⟩) :=
  ⟨rfl, rfl, rfl, rfl, rfl,
    AddEventToStream_materialization_failure
      { Backend.healthy 5 with now := ⟨0, .Infinity, true⟩ }
      ⟨⟨[⟨1, 10, 0⟩], []⟩, []⟩
      ⟨⟨[⟨1, 10, 1⟩], []⟩, [⟨.Begin, true⟩, ⟨.IncrementStreamVersion, true⟩]⟩
      ⟨⟨[⟨1, 10, 1⟩], [⟨1, 100, 1, [123, 125], ⟨0, .Infinity, true⟩⟩]⟩,
        [⟨.Begin, true⟩, ⟨.IncrementStreamVersion, true⟩, ⟨.AddEventToStream, true⟩]⟩
      ⟨1, 100, 0, .impl [123, 125]⟩ ⟨1, 10, 1⟩ [123, 125]
      ⟨1, 100, 1, [123, 125], ⟨0, .Infinity, true⟩⟩
      (.sentinel .ErrInvalidEventTimestamp) rfl rfl rfl rfl rfl⟩

/-- Claim C8: if the transaction cannot be started, or the work succeeded and the transaction
cannot be committed, `AddEventToStream` returns the error
`fmt.Errorf("%w because of %w", ErrFailedToInsertEventToStream, cause)`, where `cause` is
`ErrCouldNotStartTransaction`, respectively `ErrCouldNotCommitTransaction`: it is an insert
failure, it wraps the executor's failure, it is not the bare transaction-layer error, and the
rows are as before. -/
theorem AddEventToStream_folds_transaction_failure (b : Backend) (conn : Conn) (e : EventToAdd)
    (cause : Sentinel)
    (h : (b.beginErr ≠ none ∧ cause = .ErrCouldNotStartTransaction) ∨
      (b.beginErr = none ∧
        (∃ ev, (AddEventToStream.work b e (conn.issue .Begin true)).1 = .returned ev none) ∧
        b.commitErr ≠ none ∧ cause = .ErrCouldNotCommitTransaction)) :
    ∃ err, (AddEventToStream b conn e).1 = .returned default (some err) ∧
      err = .wrap2 "%w because of %w" [] (.sentinel .ErrFailedToInsertEventToStream)
        (.sentinel cause) ∧
      err.Is .ErrFailedToInsertEventToStream = true ∧ err.Is cause = true ∧
      err ≠ .sentinel cause ∧ (AddEventToStream b conn e).2.store = conn.store := by
  rcases h with ⟨hb, hc⟩ | ⟨hb, ⟨ev, hw⟩, hc, hcause⟩
  · cases hb' : b.beginErr with
    | none => exact absurd hb' hb
    | some c =>
      subst hc
      rw [AddEventToStream_begin_failed b conn e hb']
      exact ⟨_, rfl, rfl, by simp [GoError.Is], by simp [GoError.Is], by simp, rfl⟩
  · cases hc' : b.commitErr with
    | none => exact absurd hc' hc
    | some c =>
      subst hcause
      rw [AddEventToStream_commit_failed b conn e hb hw hc']
      exact ⟨_, rfl, rfl, by simp [GoError.Is], by simp [GoError.Is], by simp, rfl⟩

/-- The statement of C8 at a backend that cannot begin a transaction and at one that cannot
commit it. -/
theorem AddEventToStream_folds_transaction_failure_witness :
    ((({ Backend.healthy 5 with beginErr := some 8006 } : Backend).beginErr ≠ none ∧
        Sentinel.ErrCouldNotStartTransaction = .ErrCouldNotStartTransaction) ∧
      ∃ err, (AddEventToStream { Backend.healthy 5 with beginErr := some 8006 }
          ⟨exampleStore, []⟩ exampleEventToAdd).1 = .returned default (some err) ∧
        err = .wrap2 "%w because of %w" [] (.sentinel .ErrFailedToInsertEventToStream)
          (.sentinel .ErrCouldNotStartTransaction) ∧
        err.Is .ErrFailedToInsertEventToStream = true ∧
        err.Is .ErrCouldNotStartTransaction = true ∧
        err ≠ .sentinel .ErrCouldNotStartTransaction ∧
        (AddEventToStream { Backend.healthy 5 with beginErr := some 8006 }
          ⟨exampleStore, []⟩ exampleEventToAdd).2.store = exampleStore) ∧
    ((({ Backend.healthy 5 with commitErr := some 40001 } : Backend).beginErr = none ∧
        (∃ ev, (AddEventToStream.work { Backend.healthy 5 with commitErr := some 40001 }
          exampleEventToAdd (Conn.issue ⟨exampleStore, []⟩ .Begin true)).1 =
            .returned ev none) ∧
        ({ Backend.healthy 5 with commitErr := some 40001 } : Backend).commitErr ≠ none ∧
        Sentinel.ErrCouldNotCommitTransaction = .ErrCouldNotCommitTransaction) ∧
      ∃ err, (AddEventToStream { Backend.healthy 5 with commitErr := some 40001 }
          ⟨exampleStore, []⟩ exampleEventToAdd).1 = .returned default (some err) ∧
        err = .wrap2 "%w because of %w" [] (.sentinel .ErrFailedToInsertEventToStream)
          (.sentinel .ErrCouldNotCommitTransaction) ∧
        err.Is .ErrFailedToInsertEventToStream = true ∧
        err.Is .ErrCouldNotCommitTransaction = true ∧
        err ≠ .sentinel .ErrCouldNotCommitTransaction ∧
        (AddEventToStream { Backend.healthy 5 with commitErr := some 40001 }
          ⟨exampleStore, []⟩ exampleEventToAdd).2.store = exampleStore) :=
  ⟨⟨⟨by decide, rfl⟩,
    AddEventToStream_folds_transaction_failure _ ⟨exampleStore, []⟩ exampleEventToAdd _
      (Or.inl ⟨by decide, rfl⟩)⟩,
   ⟨rfl, ⟨⟨1, 1, 5, [123, 125]⟩, by decide⟩, by decide, rfl⟩,
    AddEventToStream_folds_transaction_failure _ ⟨exampleStore, []⟩ exampleEventToAdd _
      (Or.inr ⟨rfl, ⟨⟨1, 1, 5, [123, 125]⟩, by decide⟩, by decide, rfl⟩)⟩

/-- Claim C9: in every store reached from the empty store by any sequence of `CreateStream`
and `AddEventToStream` calls, whatever the backend does during each call, stream IDs are
unique, every event row belongs to a stream, and for every stream the versions of its stored
events are, in insertion order, exactly 1, 2, ..., `LatestVersion`: contiguous from 1,
strictly increasing, without gaps and without a repeated version. -/
theorem run_versions_contiguous (ops : List Op) :
    ((run ops).streams.map (fun r => r.StreamID)).Nodup ∧
    (∀ ev ∈ (run ops).events, ∃ r ∈ (run ops).streams, r.StreamID = ev.StreamID) ∧
    ∀ r ∈ (run ops).streams, 0 ≤ r.LatestVersion ∧
      (run ops).eventVersions r.StreamID =
        List.map Int.ofNat (List.range' 1 r.LatestVersion.toNat) ∧
      ((run ops).eventVersions r.StreamID).Pairwise (fun v w => v < w) := by
  have h : (run ops).inv := inv_run ops Store.empty inv_empty
  refine ⟨h.1, h.2.1, fun r hr => ?_⟩
  obtain ⟨h0, hv⟩ := h.2.2 r hr
  refine ⟨h0, hv, ?_⟩
  show ((run ops).eventVersions r.StreamID).Pairwise (fun v w => v < w)
  rw [hv, List.pairwise_map]
  exact (List.pairwise_lt_range' 1 _).imp (fun h => Int.ofNat_lt.2 h)

/-- Claim C10: for a row whose version is an `int64`, `newEventFromDatabase` succeeds exactly
when the version is at least 0 and the timestamp is present and finite; it fails with
`ErrInvalidStreamVersion` when the version is negative and with `ErrInvalidEventTimestamp`
when the version is at least 0 and the timestamp is absent or infinite; on success the event
carries the row's stream ID, payload and timestamp unchanged and a version numerically equal
to the row's, below `2 ^ 64`. -/
theorem newEventFromDatabase_spec (e : db.Event) (h : isInt64 e.Version) :
    ((newEventFromDatabase e).2 = none ↔
      (0 ≤ e.Version ∧ e.RecordedAt.Valid = true ∧ e.RecordedAt.InfinityModifier = .Finite)) ∧
    (e.Version < 0 →
      newEventFromDatabase e = (default, some (.sentinel .ErrInvalidStreamVersion))) ∧
    (0 ≤ e.Version → (e.RecordedAt.Valid = false ∨ e.RecordedAt.InfinityModifier ≠ .Finite) →
      newEventFromDatabase e = (default, some (.sentinel .ErrInvalidEventTimestamp))) ∧
    ((newEventFromDatabase e).2 = none →
      (newEventFromDatabase e).1.streamID = e.StreamID ∧
      (newEventFromDatabase e).1.payload = e.Payload ∧
      (newEventFromDatabase e).1.recordedAt = e.RecordedAt.Time ∧
      (((newEventFromDatabase e).1.version : Nat) : Int) = e.Version ∧
      (newEventFromDatabase e).1.version < 2 ^ 64) := by
  unfold newEventFromDatabase
  by_cases hv : e.Version < 0
  · simp [hv]
  · have hv0 : 0 ≤ e.Version := by omega
    by_cases ht : e.RecordedAt.Valid = true ∧ e.RecordedAt.InfinityModifier = .Finite
    · obtain ⟨ht1, ht2⟩ := ht
      simp [hv, ht1, ht2, hv0]
      refine ⟨toUint64_of_nonneg hv0 h, ?_⟩
      have := toUint64_of_nonneg hv0 h
      unfold isInt64 maxInt64 at h
      omega
    · have ht' : (!e.RecordedAt.Valid || e.RecordedAt.InfinityModifier != .Finite) = true := by
        by_cases h1 : e.RecordedAt.Valid = true
        · have h2 : e.RecordedAt.InfinityModifier ≠ .Finite := fun h2 => ht ⟨h1, h2⟩
          simp [h1, h2]
        · simp [h1]
      simp only [hv, ht', if_false, if_true]
      simp [hv0]
      intro h1 h2; exact ht ⟨h1, h2⟩

/-- The statement of C10 for the row of version 1 recorded at instant 5, which converts. -/
theorem newEventFromDatabase_spec_witness :
    isInt64 (⟨1, 100, 1, [123, 125], ⟨5, .Finite, true⟩⟩ : db.Event).Version ∧
    (newEventFromDatabase ⟨1, 100, 1, [123, 125], ⟨5, .Finite, true⟩⟩).2 = none ∧
    (newEventFromDatabase ⟨1, 100, 1, [123, 125], ⟨5, .Finite, true⟩⟩).1.streamID = 1 ∧
    (newEventFromDatabase ⟨1, 100, 1, [123, 125], ⟨5, .Finite, true⟩⟩).1.payload =
      [123, 125] ∧
    (newEventFromDatabase ⟨1, 100, 1, [123, 125], ⟨5, .Finite, true⟩⟩).1.recordedAt = 5 ∧
    (((newEventFromDatabase ⟨1, 100, 1, [123, 125], ⟨5, .Finite, true⟩⟩).1.version : Nat) :
      Int) = 1 ∧
    (newEventFromDatabase ⟨1, 100, 1, [123, 125], ⟨5, .Finite, true⟩⟩).1.version < 2 ^ 64 :=
  ⟨by decide,
    (newEventFromDatabase_spec ⟨1, 100, 1, [123, 125], ⟨5, .Finite, true⟩⟩ (by decide)).1.2
      ⟨by decide, rfl, rfl⟩,
    (newEventFromDatabase_spec ⟨1, 100, 1, [123, 125], ⟨5, .Finite, true⟩⟩ (by decide)).2.2.2
      (by decide)⟩

end EShop
